import Mathlib

/-!
Shallow embedding of the Society-Management-System core
(src/core/models.py and src/core/views.py).

The relational store is a record of lists; primary keys are `Option Nat`
(`none` = unsaved, mirroring Django's `pk is None`); foreign keys are the
referenced row's numeric id.  Python exceptions are modelled with an
`Except PyExc` result type; `transaction.atomic` is modelled by continuing
from the original store whenever an exception escapes the block.  Framework
primitives that live outside this repository (Django field validators,
`int`/`Decimal`/`strptime` parsing) are modelled as executable Lean
functions that follow their documented behaviour on the inputs the
handlers feed them.
-/

/-- Python exceptions that the handlers in views.py raise or catch. -/
inductive PyExc where
  | http404
  | validationError (msgs : List String)
  | integrityError
  | objectDoesNotExist
  | valueError
deriving DecidableEq, Repr

/-- Message level of a Django `messages` notice (only success/error are used
by the handlers we model). -/
inductive Level where
  | success
  | error
deriving DecidableEq, Repr

/-- A user-visible notice queued via `django.contrib.messages`. -/
structure Notice where
  level : Level
  msg : String
deriving DecidableEq, Repr

def nerr (m : String) : Notice := ⟨Level.error, m⟩

def nsucc (m : String) : Notice := ⟨Level.success, m⟩

def hasErrorNotice (l : List Notice) : Bool :=
  l.any (fun n => n.level == Level.error)

def hasSuccessNotice (l : List Notice) : Bool :=
  l.any (fun n => n.level == Level.success)

/-- The HTTP response a handler hands back to the framework:
`redirect(name)` or `render(template)`. -/
inductive Response where
  | redirect (target : String)
  | render (template : String)
deriving DecidableEq, Repr

/-- User role, the choices of `User.ROLE_CHOICES` in models.py. -/
inductive Role where
  | ADMIN
  | OWNER
  | TENANT
deriving DecidableEq, Repr

/-- `datetime.date`: year-month-day triple. -/
structure PyDate where
  year : Nat
  month : Nat
  day : Nat
deriving DecidableEq, Repr

/-- date comparison (lexicographic, as Python compares `date`s). -/
def dateLt (a b : PyDate) : Bool :=
  a.year < b.year ||
    (a.year == b.year &&
      (a.month < b.month || (a.month == b.month && a.day < b.day)))

/-- Python `str.strip()`, written over the character list so that it
evaluates inside the kernel. -/
def pyStrip (s : String) : String :=
  ⟨((s.data.dropWhile Char.isWhitespace).reverse.dropWhile
      Char.isWhitespace).reverse⟩

/-- Python `str.lower()` over the character list. -/
def pyLower (s : String) : String :=
  ⟨s.data.map Char.toLower⟩

/-- Splitting on a single separator character (the behaviour of
Python `str.split(sep)` for one-character separators). -/
def splitOnChar (c : Char) : List Char → List (List Char)
  | [] => [[]]
  | a :: rest =>
    match splitOnChar c rest with
    | [] => if a == c then [[], []] else [[a]]
    | h :: t => if a == c then [] :: h :: t else (a :: h) :: t

/-- Decimal value of a digit-character run. -/
def digitsVal (l : List Char) : Nat :=
  l.foldl (fun a c => a * 10 + (c.toNat - 48)) 0

/-- Digit-run parsing: `some` exactly on non-empty all-digit runs. -/
def charsToNat? (l : List Char) : Option Nat :=
  if !l.isEmpty && l.all Char.isDigit then some (digitsVal l) else none

/-- Joining messages with a separator, used for the validation-error
notices. -/
def pyIntercalate (sep : String) : List String → String
  | [] => ""
  | [x] => x
  | x :: rest => x ++ sep ++ pyIntercalate sep rest

/-- `datetime.strptime(s, "%Y-%m-%d")`: three dash-separated numeric fields,
month 1..12, day 1..31 (month lengths not distinguished — the claims never
exercise day-of-month edge cases). Returns `none` when parsing raises
`ValueError`. -/
def parseDate (s : String) : Option PyDate :=
  match splitOnChar '-' s.data with
  | [y, m, d] =>
    match charsToNat? y, charsToNat? m, charsToNat? d with
    | some yv, some mv, some dv =>
      if 1 ≤ mv && mv ≤ 12 && 1 ≤ dv && dv ≤ 31 then some ⟨yv, mv, dv⟩
      else none
    | _, _, _ => none
  | _ => none

/-- A `decimal.Decimal` with `dp` decimal digits: the value `num / 10^dp`. -/
structure PyDec where
  num : Int
  dp : Nat
deriving DecidableEq, Repr

def parseDecFrac (sign : Int) (intPart fracPart : List Char) : Option PyDec :=
  if intPart.isEmpty && fracPart.isEmpty then none
  else if intPart.all Char.isDigit && fracPart.all Char.isDigit then
    some ⟨sign * ((digitsVal intPart : Int) * (10 : Int) ^ fracPart.length
            + (digitsVal fracPart : Int)), fracPart.length⟩
  else none

/-- `Decimal(s)` on the plain literals the forms submit:
optional sign, digits, optional fractional part.  `none` models
`decimal.InvalidOperation`. -/
def parseDecimal (s : String) : Option PyDec :=
  let t := (pyStrip s).data
  let sign : Int := match t with
    | '-' :: _ => -1
    | _ => 1
  let body := match t with
    | '-' :: r => r
    | '+' :: r => r
    | r => r
  match splitOnChar '.' body with
  | [ip] => parseDecFrac sign ip []
  | [ip, fp] => parseDecFrac sign ip fp
  | _ => none

/-- `d ≥ 0.01` (`MinValueValidator(0.01)` on `Tenant.rent_amount`). -/
def decGeCent (d : PyDec) : Bool := d.num * 100 ≥ (10 : Int) ^ d.dp

/-- `d ≥ 1.00` (`MinValueValidator(1.00)` on `MaintenanceBill.amount`). -/
def decGeOne (d : PyDec) : Bool := d.num ≥ (10 : Int) ^ d.dp

/-- `DecimalField(max_digits=10, decimal_places=2)` field check. -/
def decFieldOk (d : PyDec) : Bool :=
  d.dp ≤ 2 && d.num.natAbs < 10 ^ 10

/-- Python `str.isdigit` (False on the empty string). -/
def pyIsdigit (s : String) : Bool :=
  !s.data.isEmpty && s.data.all Char.isDigit

/-- Python `int(s)`: optional surrounding whitespace, optional sign,
non-empty digit run; `none` models `ValueError`. -/
def pyInt (s : String) : Option Int :=
  match (pyStrip s).data with
  | '-' :: rest => (charsToNat? rest).map (fun n => -(n : Int))
  | '+' :: rest => (charsToNat? rest).map (fun n => (n : Int))
  | l => (charsToNat? l).map (fun n => (n : Int))

/-- `request.POST.get(k)` yields `None` when absent; Python truthiness of
the resulting value: `None` and `""` are falsy. -/
def blank (o : Option String) : Bool :=
  match o with
  | none => true
  | some s => s == ""

/-- Charset of `Society.name` (regex `[a-zA-Z0-9\s\-,.]`). -/
def societyNameChar (c : Char) : Bool :=
  c.isAlphanum || c.isWhitespace || c == '-' || c == ',' || c == '.'

/-- Charset of `Flat.flat_number` (letters, digits, hyphen, slash). -/
def flatNumberChar (c : Char) : Bool :=
  c.isAlphanum || c == '-' || c == '/'

/-- Charset of `AbstractUser.username` (letters, digits and `@.+-_`). -/
def usernameChar (c : Char) : Bool :=
  c.isAlphanum || c == '@' || c == '.' || c == '+' || c == '-' || c == '_'

def usernameOk (s : String) : Bool :=
  !s.data.isEmpty && s.length ≤ 150 && s.data.all usernameChar

/-- Modelled approximation of Django's `EmailField` validator (framework
code, not part of this repository): non-empty local and domain parts
around a single `@`, no whitespace. -/
def emailOk (s : String) : Bool :=
  match splitOnChar '@' s.data with
  | [l, d] => !l.isEmpty && !d.isEmpty && !(s.data.any Char.isWhitespace)
  | _ => false

/-- Phone regex of models.py: `^\+?1?\d{9,15}$`. -/
def phoneOk (p : String) : Bool :=
  let l := match p.data with
    | '+' :: r => r
    | r => r
  (l.length ≥ 9 && l.length ≤ 15 && !l.isEmpty && l.all Char.isDigit) ||
    (match l with
     | '1' :: r => r.length ≥ 9 && r.length ≤ 15 && l.all Char.isDigit
     | _ => false)

/-- `MaintenanceBill.MONTH_CHOICES` keys. -/
def monthNames : List String :=
  ["JANUARY", "FEBRUARY", "MARCH", "APRIL", "MAY", "JUNE", "JULY",
   "AUGUST", "SEPTEMBER", "OCTOBER", "NOVEMBER", "DECEMBER"]

def monthOk (m : String) : Bool := monthNames.contains m

def billStatusOk (st : String) : Bool := st == "PAID" || st == "UNPAID"

/-- Row of the `User` table (fields the core logic reads). -/
structure User where
  pk : Option Nat
  username : String
  email : String
  first_name : String
  last_name : String
  phone : Option String
  role : Role
  is_active : Bool
  is_superuser : Bool
deriving DecidableEq, Repr

/-- Row of the `Society` table. -/
structure Society where
  pk : Option Nat
  name : String
  address : String
deriving DecidableEq, Repr

/-- Row of the `Flat` table; `society`/`owner` are foreign-key ids. -/
structure Flat where
  pk : Option Nat
  society : Nat
  flat_number : String
  owner : Option Nat
deriving DecidableEq, Repr

/-- Row of the `Tenant` table. -/
structure Tenant where
  pk : Option Nat
  user : Nat
  flat : Nat
  rent_amount : PyDec
  start_date : PyDate
  end_date : Option PyDate
  is_active : Bool
deriving DecidableEq, Repr

/-- Row of the `MaintenanceBill` table. -/
structure Bill where
  pk : Option Nat
  flat : Nat
  month : String
  year : Int
  amount : PyDec
  status : String
deriving DecidableEq, Repr

/-- The relational store: one list per table plus the autoincrement
counter used when a new row is saved. -/
structure Store where
  users : List User
  societies : List Society
  flats : List Flat
  tenants : List Tenant
  bills : List Bill
  nextId : Nat
deriving DecidableEq, Repr

def emptyStore : Store := ⟨[], [], [], [], [], 1⟩

def findUser (s : Store) (k : Nat) : Option User :=
  s.users.find? (fun x => x.pk == some k)

def findSociety (s : Store) (k : Nat) : Option Society :=
  s.societies.find? (fun x => x.pk == some k)

def findFlat (s : Store) (k : Nat) : Option Flat :=
  s.flats.find? (fun x => x.pk == some k)

def findTenant (s : Store) (k : Nat) : Option Tenant :=
  s.tenants.find? (fun x => x.pk == some k)

def findBill (s : Store) (k : Nat) : Option Bill :=
  s.bills.find? (fun x => x.pk == some k)

/-- `Flat.objects.get(id=k, owner=me)` / `get_object_or_404(Flat, id=k, owner=request.user)`. -/
def findFlatOwned (s : Store) (k : Nat) (me : Nat) : Option Flat :=
  s.flats.find? (fun f => f.pk == some k && f.owner == some me)

/-- `get_object_or_404(Tenant, pk=k, flat__owner=request.user)`. -/
def findTenantOwned (s : Store) (k : Nat) (me : Nat) : Option Tenant :=
  s.tenants.find? (fun t => t.pk == some k &&
    s.flats.any (fun f => f.pk == some t.flat && f.owner == some me))

/-- Result of a handler: the store after its writes, the notices it queued
and the HTTP response it returned. -/
structure HResult where
  store : Store
  notices : List Notice
  response : Response
deriving DecidableEq, Repr

/-- Outcome of a `full_clean`: `ok` with the cleaned record when no
validation error was collected, otherwise `ValidationError` carrying the
collected messages. -/
def cleanResWith {α : Type} (l : List String) (a : α) : Except PyExc α :=
  match l with
  | [] => Except.ok a
  | errs => Except.error (PyExc.validationError errs)

/-- `User.full_clean()`: field validators, then `User.clean()` (email
lowercased and stripped; non-empty first/last name for OWNER/TENANT),
then `validate_unique` on email and username (excluding self).  Returns
the cleaned record. -/
def userFullClean (s : Store) (u : User) : Except PyExc User :=
  let fieldErrs :=
    (if emailOk u.email then [] else ["Enter a valid email address."]) ++
    (if usernameOk u.username then [] else ["Enter a valid username."]) ++
    (match u.phone with
     | none => []
     | some p => if phoneOk p then []
                 else ["Enter a valid phone number (9-15 digits)"])
  let u2 := { u with email := pyStrip (pyLower u.email) }
  let cleanErrs :=
    if (u2.role == Role.OWNER || u2.role == Role.TENANT) &&
        (u2.first_name == "" || u2.last_name == "") then
      ["First name and last name are required for Owners and Tenants"]
    else []
  let uniqErrs :=
    (if s.users.any (fun x => x.pk != u.pk && x.email == u2.email) then
       ["User with this Email already exists."] else []) ++
    (if s.users.any (fun x => x.pk != u.pk && x.username == u2.username) then
       ["A user with that username already exists."] else [])
  cleanResWith (fieldErrs ++ cleanErrs ++ uniqErrs) u2

/-- `Society.full_clean()`: field validators (blank, charset, max length),
then `Society.clean()` (strip name/address, minimum lengths), no unique
constraints.  Returns the cleaned (stripped) record. -/
def societyFullClean (soc : Society) : Except PyExc Society :=
  let fieldErrs :=
    (if soc.name == "" then ["This field cannot be blank."]
     else if soc.name.data.all societyNameChar then []
     else ["Society name can only contain letters, numbers, spaces, hyphens, commas and dots"]) ++
    (if soc.name.length ≤ 200 then []
     else ["Ensure this value has at most 200 characters."]) ++
    (if soc.address == "" then ["This field cannot be blank."] else [])
  let name2 := if soc.name ≠ "" then pyStrip soc.name else soc.name
  let addr2 := if soc.address ≠ "" then pyStrip soc.address else soc.address
  let cleanErrs :=
    (if soc.name ≠ "" && name2.length < 3 then
       ["Society name must be at least 3 characters long"] else []) ++
    (if soc.address ≠ "" && addr2.length < 10 then
       ["Please provide a complete address (minimum 10 characters)"] else [])
  cleanResWith (fieldErrs ++ cleanErrs) { soc with name := name2, address := addr2 }

/-- `Tenant.full_clean()`: field validators (rent minimum and digits),
then `Tenant.clean()` (user role must be TENANT, start date not before
2000-01-01, end date after start date, and — only for unsaved records —
no existing active tenant for the same user), then `validate_unique` on
the one-to-one `user` field.  `Tenant.clean` does not mutate the record. -/
def tenantFullClean (s : Store) (t : Tenant) : Except PyExc Unit :=
  let fieldErrs :=
    (if decGeCent t.rent_amount then []
     else ["Rent amount must be greater than 0"]) ++
    (if decFieldOk t.rent_amount then []
     else ["Ensure the rent amount fits 10 digits and 2 decimal places."])
  let cleanErrs :=
    (match findUser s t.user with
     | some u => if u.role == Role.TENANT then []
                 else ["Selected user must have TENANT role"]
     | none => []) ++
    (if dateLt t.start_date ⟨2000, 1, 1⟩ then
       ["Start date cannot be before year 2000"] else []) ++
    (match t.end_date with
     | some e => if !(dateLt t.start_date e) then
                   ["End date must be after start date"] else []
     | none => []) ++
    (if t.pk == none &&
        s.tenants.any (fun x => x.user == t.user && x.is_active) then
       ["This user is already an active tenant"] else [])
  let uniqErrs :=
    if s.tenants.any (fun x => x.pk != t.pk && x.user == t.user) then
      ["Tenant with this User already exists."] else []
  cleanResWith (fieldErrs ++ cleanErrs ++ uniqErrs) ()

/-- The non-year validation conditions of `MaintenanceBill.full_clean()`:
month and status choices, amount minimum and digits, flat owner present,
no duplicate `(flat, month, year)` (both the advisory check in `clean`
and `validate_unique`). -/
def billNonYearChecksOk (s : Store) (b : Bill) : Prop :=
  monthOk b.month = true ∧
  decGeOne b.amount = true ∧ decFieldOk b.amount = true ∧
  billStatusOk b.status = true ∧
  (match findFlat s b.flat with
   | some fl => fl.owner ≠ none
   | none => True) ∧
  (b.pk = none → ¬(s.bills.any fun x =>
      x.flat == b.flat && x.month == b.month && x.year == b.year) = true) ∧
  ¬(s.bills.any fun x => x.pk != b.pk &&
      x.flat == b.flat && x.month == b.month && x.year == b.year) = true

/-- `MaintenanceBill.full_clean()` against the store and the current year:
field validators (month/status choices, `year ≥ 2000` and the redundant
`year ≥ 1900`, amount checks), then `clean()` (`year ≤ current_year + 1`
when `year` is truthy, flat must have an owner, advisory duplicate
check for unsaved bills), then `validate_unique` on
`(flat, month, year)`.  `MaintenanceBill.clean` does not mutate. -/
def billFullClean (s : Store) (currentYear : Int) (b : Bill) :
    Except PyExc Unit :=
  let fieldErrs :=
    (if monthOk b.month then []
     else ["Value " ++ b.month ++ " is not a valid choice."]) ++
    (if b.year ≥ 2000 then [] else ["Year must be 2000 or later"]) ++
    (if b.year ≥ 1900 then []
     else ["Ensure this value is greater than or equal to 1900."]) ++
    (if decGeOne b.amount then []
     else ["Bill amount must be at least 1"]) ++
    (if decFieldOk b.amount then []
     else ["Ensure the amount fits 10 digits and 2 decimal places."]) ++
    (if billStatusOk b.status then []
     else ["Value " ++ b.status ++ " is not a valid choice."])
  let cleanErrs :=
    (if b.year ≠ 0 && b.year > currentYear + 1 then
       ["Year cannot be more than " ++ toString (currentYear + 1)] else []) ++
    (match findFlat s b.flat with
     | some fl => if fl.owner == none then
                    ["Cannot create bill for flat without an owner"] else []
     | none => []) ++
    (if b.pk == none && s.bills.any (fun x =>
        x.flat == b.flat && x.month == b.month && x.year == b.year) then
       ["A bill for this flat, month and year already exists"] else [])
  let uniqErrs :=
    if s.bills.any (fun x => x.pk != b.pk &&
        x.flat == b.flat && x.month == b.month && x.year == b.year) then
      ["Maintenance bill with this Flat, Month and Year already exists."]
    else []
  cleanResWith (fieldErrs ++ cleanErrs ++ uniqErrs) ()

/-- The role coercion in `User.save()`: any superuser gets role ADMIN
before the row is written. -/
def userSavePre (u : User) : User :=
  if u.is_superuser then { u with role := Role.ADMIN } else u

/-- INSERT of a new `User` row (`user.save()` with `pk is None`): applies
the `User.save` role coercion, assigns the next id and enforces the
unique constraints on email and username. -/
def saveNewUser (s : Store) (u : User) : Except PyExc (Store × User) :=
  let u2 := userSavePre u
  let u3 := { u2 with pk := some s.nextId }
  if s.users.any (fun x => x.email == u3.email || x.username == u3.username)
  then Except.error PyExc.integrityError
  else Except.ok
    ({ s with users := s.users ++ [u3], nextId := s.nextId + 1 }, u3)

/-- UPDATE of an existing `User` row: applies the `User.save` role
coercion and enforces email/username uniqueness against the other rows. -/
def saveExistingUser (s : Store) (u : User) : Except PyExc Store :=
  let u2 := userSavePre u
  if s.users.any (fun x => x.pk != u2.pk &&
      (x.email == u2.email || x.username == u2.username))
  then Except.error PyExc.integrityError
  else Except.ok
    { s with users := s.users.map (fun x => if x.pk == u2.pk then u2 else x) }

/-- INSERT of a new `Society` row (no unique constraints). -/
def saveNewSociety (s : Store) (soc : Society) : Store × Society :=
  let soc2 := { soc with pk := some s.nextId }
  ({ s with societies := s.societies ++ [soc2], nextId := s.nextId + 1 }, soc2)

/-- INSERT of a new `Tenant` row, enforcing the one-to-one constraint on
`user`. -/
def saveNewTenant (s : Store) (t : Tenant) : Except PyExc (Store × Tenant) :=
  let t2 := { t with pk := some s.nextId }
  if s.tenants.any (fun x => x.user == t2.user)
  then Except.error PyExc.integrityError
  else Except.ok
    ({ s with tenants := s.tenants ++ [t2], nextId := s.nextId + 1 }, t2)

/-- UPDATE of an existing `Tenant` row, enforcing the one-to-one
constraint on `user` against the other rows. -/
def saveExistingTenant (s : Store) (t : Tenant) : Except PyExc Store :=
  if s.tenants.any (fun x => x.pk != t.pk && x.user == t.user)
  then Except.error PyExc.integrityError
  else Except.ok
    { s with tenants := s.tenants.map (fun x => if x.pk == t.pk then t else x) }

/-- INSERT of a new `MaintenanceBill` row, enforcing the unique-together
constraint on `(flat, month, year)`. -/
def saveNewBill (s : Store) (b : Bill) : Except PyExc Store :=
  let b2 := { b with pk := some s.nextId }
  if s.bills.any (fun x =>
      x.flat == b2.flat && x.month == b2.month && x.year == b2.year)
  then Except.error PyExc.integrityError
  else Except.ok
    { s with bills := s.bills ++ [b2], nextId := s.nextId + 1 }

/-- UPDATE of an existing `MaintenanceBill` row, enforcing the
unique-together constraint against the other rows. -/
def saveExistingBill (s : Store) (b : Bill) : Except PyExc Store :=
  if s.bills.any (fun x => x.pk != b.pk &&
      x.flat == b.flat && x.month == b.month && x.year == b.year)
  then Except.error PyExc.integrityError
  else Except.ok
    { s with bills := s.bills.map (fun x => if x.pk == b.pk then b else x) }

/-- `society.delete()`: `Flat.society` is `on_delete=CASCADE`, so the
society's flats are deleted too, and through `MaintenanceBill.flat` /
`Tenant.flat` (both CASCADE) so are their bills and tenants.  The delete
never raises `IntegrityError`. -/
def deleteSocietyCascade (s : Store) (k : Nat) : Store :=
  { s with
    societies := s.societies.filter (fun x => x.pk != some k),
    flats := s.flats.filter (fun f => f.society != k),
    bills := s.bills.filter (fun b =>
      !(s.flats.any (fun f => f.pk == some b.flat && f.society == k))),
    tenants := s.tenants.filter (fun t =>
      !(s.flats.any (fun f => f.pk == some t.flat && f.society == k))) }

/-- `flat.delete()`: bills and tenants of the flat are CASCADE-deleted. -/
def deleteFlatCascade (s : Store) (k : Nat) : Store :=
  { s with
    flats := s.flats.filter (fun f => f.pk != some k),
    bills := s.bills.filter (fun b => b.flat != k),
    tenants := s.tenants.filter (fun t => t.flat != k) }

/-- `user.delete()`: `Tenant.user` is CASCADE (tenant rows of the user are
deleted); `Flat.owner` is SET_NULL (owned flats keep existing with no
owner). -/
def deleteUserCascade (s : Store) (k : Nat) : Store :=
  { s with
    users := s.users.filter (fun x => x.pk != some k),
    tenants := s.tenants.filter (fun t => t.user != k),
    flats := s.flats.map (fun f =>
      if f.owner == some k then { f with owner := none } else f) }

/-- `tenant.delete()`: no dependent rows reference a tenant. -/
def deleteTenantRow (s : Store) (k : Nat) : Store :=
  { s with tenants := s.tenants.filter (fun t => t.pk != some k) }

/-- Form data of `create_society` (per-field result of
`request.POST.get(k, "").strip()` done in the handler, plus the request
method). -/
structure SocietyForm where
  post : Bool
  name : String
  address : String
deriving DecidableEq, Repr

/-- views.create_society: required-field check, `full_clean`, save;
ValidationError and unexpected errors queue an error notice and fall
through to `render`; only the success path redirects. -/
def create_society (s : Store) (f : SocietyForm) : Except PyExc HResult :=
  if f.post then
    let name := pyStrip f.name
    let address := pyStrip f.address
    if name == "" || address == "" then
      Except.ok ⟨s, [nerr "Society Name and Address are required."],
        Response.render "admin/society_list.html"⟩
    else
      match societyFullClean ⟨none, name, address⟩ with
      | Except.error (PyExc.validationError msgs) =>
        Except.ok ⟨s,
          [nerr ("Validation error: " ++ pyIntercalate ", " msgs)],
          Response.render "admin/society_list.html"⟩
      | Except.error _ =>
        Except.ok ⟨s,
          [nerr "An unexpected error occurred while creating the society."],
          Response.render "admin/society_list.html"⟩
      | Except.ok soc =>
        let (s2, soc2) := saveNewSociety s soc
        Except.ok ⟨s2,
          [nsucc ("Society \"" ++ soc2.name ++ "\" created successfully.")],
          Response.redirect "core:society_list"⟩
  else Except.ok ⟨s, [], Response.render "admin/society_list.html"⟩

/-- views.delete_society: `get_object_or_404` (Http404 escapes the
handler), then `society.delete()`.  With `on_delete=CASCADE` the delete
always succeeds, so the handler's `except IntegrityError` branch
("... because it contains flats") is unreachable. -/
def delete_society (s : Store) (k : Nat) : Except PyExc HResult :=
  match findSociety s k with
  | none => Except.error PyExc.http404
  | some soc =>
    Except.ok ⟨deleteSocietyCascade s k,
      [nsucc ("Society \"" ++ soc.name ++ "\" deleted successfully.")],
      Response.redirect "core:society_list"⟩

/-- views.delete_flat: `get_object_or_404` (Http404 escapes), then
`flat.delete()`.  With CASCADE the delete always succeeds, so the
`except IntegrityError` branch ("... has associated bills or tenants")
is unreachable. -/
def delete_flat (s : Store) (k : Nat) : Except PyExc HResult :=
  match findFlat s k with
  | none => Except.error PyExc.http404
  | some fl =>
    Except.ok ⟨deleteFlatCascade s k,
      [nsucc ("Flat " ++ fl.flat_number ++ " deleted successfully.")],
      Response.redirect "core:flat_list"⟩

/-- Form data of `create_bill` (raw `request.POST.get` results; `status`
defaults to UNPAID via `.get('status', 'UNPAID')`). -/
structure BillForm where
  post : Bool
  flat : Option String
  month : Option String
  year : Option String
  amount : Option String
  status : Option String
deriving DecidableEq, Repr

/-- views.create_bill: required fields, `flat_id.isdigit()`, `int`/`Decimal`
coercion, flat lookup (`get_object_or_404` inside the outer `try`, so a
missing flat is swallowed by `except Exception`), `full_clean`, save.
Validation and integrity failures fall through to `render`; the earlier
failures and the success path redirect. -/
def create_bill (s : Store) (currentYear : Int) (f : BillForm) :
    Except PyExc HResult :=
  if f.post then
    if blank f.flat || blank f.month || blank f.year || blank f.amount then
      Except.ok ⟨s,
        [nerr "All fields (Flat, Month, Year, Amount) are required."],
        Response.redirect "core:bill_list"⟩
    else if !(pyIsdigit (f.flat.getD "")) then
      Except.ok ⟨s, [nerr "Invalid Flat ID."],
        Response.redirect "core:bill_list"⟩
    else
      match pyInt (f.year.getD ""), parseDecimal (f.amount.getD "") with
      | some yv, some av =>
        match findFlat s ((charsToNat? (f.flat.getD "").data).getD 0) with
        | none =>
          Except.ok ⟨s,
            [nerr "An unexpected error occurred while generating the bill."],
            Response.render "admin/bill_list.html"⟩
        | some fl =>
          let bill : Bill := ⟨none, fl.pk.getD 0, f.month.getD "", yv, av,
            (f.status.getD "UNPAID")⟩
          match billFullClean s currentYear bill with
          | Except.error (PyExc.validationError msgs) =>
            Except.ok ⟨s,
              [nerr ("Validation error: " ++ pyIntercalate ", " msgs)],
              Response.render "admin/bill_list.html"⟩
          | Except.error _ =>
            Except.ok ⟨s,
              [nerr "An unexpected error occurred while generating the bill."],
              Response.render "admin/bill_list.html"⟩
          | Except.ok _ =>
            match saveNewBill s bill with
            | Except.error _ =>
              Except.ok ⟨s,
                [nerr "A bill for this flat, month, and year already exists."],
                Response.render "admin/bill_list.html"⟩
            | Except.ok s2 =>
              Except.ok ⟨s2,
                [nsucc ("Bill generated for " ++ fl.flat_number ++ " (" ++
                  f.month.getD "" ++ " " ++ f.year.getD "" ++
                  ") successfully.")],
                Response.redirect "core:bill_list"⟩
      | _, _ =>
        Except.ok ⟨s, [nerr "Invalid format for Year or Amount."],
          Response.redirect "core:bill_list"⟩
  else Except.ok ⟨s, [], Response.render "admin/bill_list.html"⟩

/-- The status flip of views.toggle_bill_status:
`'PAID' if bill.status == 'UNPAID' else 'UNPAID'`. -/
def billStatusFlip (st : String) : String :=
  if st == "UNPAID" then "PAID" else "UNPAID"

/-- views.toggle_bill_status: `get_object_or_404` (Http404 escapes),
flip the status, `bill.save()` (no validation on this path). -/
def toggle_bill_status (s : Store) (k : Nat) : Except PyExc HResult :=
  match findBill s k with
  | none => Except.error PyExc.http404
  | some b =>
    let b2 := { b with status := billStatusFlip b.status }
    match saveExistingBill s b2 with
    | Except.error _ =>
      Except.ok ⟨s, [nerr "Failed to update bill status."],
        Response.redirect "core:bill_list"⟩
    | Except.ok s2 =>
      let action := if b2.status == "PAID" then "marked as PAID"
                    else "marked as UNPAID"
      let fname := (findFlat s b2.flat).map Flat.flat_number |>.getD ""
      Except.ok ⟨s2,
        [nsucc ("Bill for Flat " ++ fname ++ " " ++ action ++ ".")],
        Response.redirect "core:bill_list"⟩

/-- Form data of `create_tenant` (the six account fields are stripped by
the handler; flat/rent/start arrive raw from `request.POST.get`). -/
structure TenantForm where
  post : Bool
  email : String
  username : String
  first_name : String
  last_name : String
  phone : String
  password : String
  flat : Option String
  rent_amount : Option String
  start_date : Option String
deriving DecidableEq, Repr

/-- views.create_tenant (`me` is `request.user.id`, the owner): required
fields, `flat_id.isdigit()`, `Decimal`/`strptime` coercion, then a
`transaction.atomic` block writing the User and the Tenant; any exception
escaping the block rolls the store back to its pre-handler state.  The
flat lookup's Http404 is caught by the bare `except Exception`.
Validation, integrity and unexpected failures fall through to `render`;
the earlier failures and the success path redirect. -/
def create_tenant (s : Store) (me : Nat) (f : TenantForm) :
    Except PyExc HResult :=
  if f.post then
    let email := pyStrip f.email
    let username := pyStrip f.username
    let first_name := pyStrip f.first_name
    let last_name := pyStrip f.last_name
    let phone := pyStrip f.phone
    let password := pyStrip f.password
    if email == "" || username == "" || first_name == "" || last_name == ""
        || password == "" || blank f.flat || blank f.rent_amount
        || blank f.start_date then
      Except.ok ⟨s, [nerr "All fields are required."],
        Response.redirect "core:tenant_list"⟩
    else if !(pyIsdigit (f.flat.getD "")) then
      Except.ok ⟨s, [nerr "Invalid Flat ID."],
        Response.redirect "core:tenant_list"⟩
    else
      match parseDecimal (f.rent_amount.getD ""),
            parseDate (f.start_date.getD "") with
      | some rent, some sd =>
        match findFlatOwned s ((charsToNat? (f.flat.getD "").data).getD 0) me with
        | none =>
          Except.ok ⟨s,
            [nerr "An system error occurred while creating the tenant."],
            Response.render "owner/tenant_list.html"⟩
        | some fl =>
          let user : User := ⟨none, username, email, first_name, last_name,
            (if phone == "" then none else some phone), Role.TENANT,
            true, false⟩
          match userFullClean s user with
          | Except.error (PyExc.validationError msgs) =>
            Except.ok ⟨s,
              [nerr ("Validation error: " ++ pyIntercalate ", " msgs)],
              Response.render "owner/tenant_list.html"⟩
          | Except.error _ =>
            Except.ok ⟨s,
              [nerr "An system error occurred while creating the tenant."],
              Response.render "owner/tenant_list.html"⟩
          | Except.ok ucleaned =>
            match saveNewUser s ucleaned with
            | Except.error _ =>
              Except.ok ⟨s,
                [nerr "A user with this email or username already exists, or the flat already has an active tenant."],
                Response.render "owner/tenant_list.html"⟩
            | Except.ok (s2, usaved) =>
              let tenant : Tenant := ⟨none, usaved.pk.getD 0, fl.pk.getD 0,
                rent, sd, none, true⟩
              match tenantFullClean s2 tenant with
              | Except.error (PyExc.validationError msgs) =>
                Except.ok ⟨s,
                  [nerr ("Validation error: " ++
                    pyIntercalate ", " msgs)],
                  Response.render "owner/tenant_list.html"⟩
              | Except.error _ =>
                Except.ok ⟨s,
                  [nerr "An system error occurred while creating the tenant."],
                  Response.render "owner/tenant_list.html"⟩
              | Except.ok _ =>
                match saveNewTenant s2 tenant with
                | Except.error _ =>
                  Except.ok ⟨s,
                    [nerr "A user with this email or username already exists, or the flat already has an active tenant."],
                    Response.render "owner/tenant_list.html"⟩
                | Except.ok (s3, _) =>
                  Except.ok ⟨s3,
                    [nsucc ("Tenant " ++ first_name ++ " " ++ last_name ++
                      " created successfully.")],
                    Response.redirect "core:tenant_list"⟩
      | _, _ =>
        Except.ok ⟨s, [nerr "Invalid format for Rent or Date."],
          Response.redirect "core:tenant_list"⟩
  else Except.ok ⟨s, [], Response.render "owner/tenant_list.html"⟩

def tenantUserFullName (s : Store) (t : Tenant) : String :=
  match findUser s t.user with
  | some u => u.first_name ++ " " ++ u.last_name
  | none => ""

/-- views.toggle_tenant_status: `get_object_or_404` on the tenant scoped
to the requesting owner (Http404 escapes), flip `is_active`,
`tenant.save()` (no validation on this path). -/
def toggle_tenant_status (s : Store) (me : Nat) (k : Nat) :
    Except PyExc HResult :=
  match findTenantOwned s k me with
  | none => Except.error PyExc.http404
  | some t =>
    let t2 := { t with is_active := !t.is_active }
    match saveExistingTenant s t2 with
    | Except.error _ =>
      Except.ok ⟨s, [nerr "Failed to update tenant status."],
        Response.redirect "core:tenant_list"⟩
    | Except.ok s2 =>
      let st := if t2.is_active then "activated" else "deactivated"
      Except.ok ⟨s2,
        [nsucc ("Tenant " ++ tenantUserFullName s t ++ " " ++ st ++ ".")],
        Response.redirect "core:tenant_list"⟩

/-- Form data of `update_tenant`. -/
structure UpdateTenantForm where
  post : Bool
  first_name : String
  last_name : String
  email : String
  username : String
  phone : String
  flat : Option String
  rent_amount : Option String
  start_date : Option String
deriving DecidableEq, Repr

/-- views.update_tenant: top-level `get_object_or_404` (Http404 escapes),
required fields, coercion, then a `transaction.atomic` block updating the
tenant's User and the Tenant; any escaping exception (including the
Http404 of the flat re-lookup, caught by `except Exception`) rolls the
store back.  Every outcome redirects to the tenant list. -/
def update_tenant (s : Store) (me : Nat) (k : Nat) (f : UpdateTenantForm) :
    Except PyExc HResult :=
  match findTenantOwned s k me with
  | none => Except.error PyExc.http404
  | some t =>
    if f.post then
      let fn := pyStrip f.first_name
      let ln := pyStrip f.last_name
      let em := pyStrip f.email
      let un := pyStrip f.username
      let ph := pyStrip f.phone
      if fn == "" || ln == "" || em == "" || un == "" || blank f.flat
          || blank f.rent_amount || blank f.start_date then
        Except.ok ⟨s, [nerr "All fields are required."],
          Response.redirect "core:tenant_list"⟩
      else if !(pyIsdigit (f.flat.getD "")) then
        Except.ok ⟨s, [nerr "Invalid Flat ID."],
          Response.redirect "core:tenant_list"⟩
      else
        match parseDecimal (f.rent_amount.getD ""),
              parseDate (f.start_date.getD "") with
        | some rent, some sd =>
          match findUser s t.user with
          | none =>
            Except.ok ⟨s,
              [nerr "An unexpected error occurred while updating the tenant."],
              Response.redirect "core:tenant_list"⟩
          | some u0 =>
            let u1 := { u0 with
                        first_name := fn, last_name := ln,
                        email := em, username := un,
                        phone := if ph == "" then none else some ph }
            match userFullClean s u1 with
            | Except.error (PyExc.validationError msgs) =>
              Except.ok ⟨s,
                [nerr ("Validation error: " ++
                  pyIntercalate ", " msgs)],
                Response.redirect "core:tenant_list"⟩
            | Except.error _ =>
              Except.ok ⟨s,
                [nerr "An unexpected error occurred while updating the tenant."],
                Response.redirect "core:tenant_list"⟩
            | Except.ok u2 =>
              match saveExistingUser s u2 with
              | Except.error _ =>
                Except.ok ⟨s, [nerr "Email or Username already in use."],
                  Response.redirect "core:tenant_list"⟩
              | Except.ok s2 =>
                match findFlatOwned s2 ((charsToNat? (f.flat.getD "").data).getD 0) me with
                | none =>
                  Except.ok ⟨s,
                    [nerr "An unexpected error occurred while updating the tenant."],
                    Response.redirect "core:tenant_list"⟩
                | some fl =>
                  let t2 := { t with
                              flat := fl.pk.getD 0,
                              rent_amount := rent, start_date := sd }
                  match tenantFullClean s2 t2 with
                  | Except.error (PyExc.validationError msgs) =>
                    Except.ok ⟨s,
                      [nerr ("Validation error: " ++
                        pyIntercalate ", " msgs)],
                      Response.redirect "core:tenant_list"⟩
                  | Except.error _ =>
                    Except.ok ⟨s,
                      [nerr "An unexpected error occurred while updating the tenant."],
                      Response.redirect "core:tenant_list"⟩
                  | Except.ok _ =>
                    match saveExistingTenant s2 t2 with
                    | Except.error _ =>
                      Except.ok ⟨s,
                        [nerr "Email or Username already in use."],
                        Response.redirect "core:tenant_list"⟩
                    | Except.ok s3 =>
                      Except.ok ⟨s3,
                        [nsucc ("Tenant " ++ fn ++ " " ++ ln ++
                          " updated successfully.")],
                        Response.redirect "core:tenant_list"⟩
        | _, _ =>
          Except.ok ⟨s, [nerr "Invalid format for Rent or Date."],
            Response.redirect "core:tenant_list"⟩
    else Except.ok ⟨s, [], Response.redirect "core:tenant_list"⟩

/-- views.delete_tenant: POST-only; top-level `get_object_or_404` (Http404
escapes), then a `transaction.atomic` block deleting the Tenant row and
its User row (whose CASCADE would delete tenants of that user and
SET_NULL flats it owns). -/
def delete_tenant (s : Store) (me : Nat) (k : Nat) (post : Bool) :
    Except PyExc HResult :=
  if post then
    match findTenantOwned s k me with
    | none => Except.error PyExc.http404
    | some t =>
      let s2 := deleteUserCascade (deleteTenantRow s k) t.user
      Except.ok ⟨s2, [nsucc "Tenant account deleted successfully."],
        Response.redirect "core:tenant_list"⟩
  else Except.ok ⟨s, [], Response.redirect "core:tenant_list"⟩

/-- The authentication state of a request (`request.user`). -/
structure AuthCtx where
  authenticated : Bool
  role : Role
deriving DecidableEq, Repr

/-- views.admin_required: unauthenticated requests are redirected to
login; authenticated non-admins get an access-denied error notice and a
redirect home; admins fall through to the wrapped view. -/
def admin_required (ctx : AuthCtx) (s : Store)
    (view : Except PyExc HResult) : Except PyExc HResult :=
  if !ctx.authenticated then
    Except.ok ⟨s, [], Response.redirect "core:login"⟩
  else if ctx.role ≠ Role.ADMIN then
    Except.ok ⟨s, [nerr "Access denied. Administrator privileges required."],
      Response.redirect "core:index"⟩
  else view

/-- views.owner_required (same decision table, OWNER role). -/
def owner_required (ctx : AuthCtx) (s : Store)
    (view : Except PyExc HResult) : Except PyExc HResult :=
  if !ctx.authenticated then
    Except.ok ⟨s, [], Response.redirect "core:login"⟩
  else if ctx.role ≠ Role.OWNER then
    Except.ok ⟨s, [nerr "Access denied. Owner privileges required."],
      Response.redirect "core:index"⟩
  else view

/-- views.tenant_required (same decision table, TENANT role). -/
def tenant_required (ctx : AuthCtx) (s : Store)
    (view : Except PyExc HResult) : Except PyExc HResult :=
  if !ctx.authenticated then
    Except.ok ⟨s, [], Response.redirect "core:login"⟩
  else if ctx.role ≠ Role.TENANT then
    Except.ok ⟨s, [nerr "Access denied. Tenant privileges required."],
      Response.redirect "core:index"⟩
  else view

/-- Concrete store for the deletion demonstrations: society 1 containing
flat 2. -/
def storeC1a : Store :=
  ⟨[], [⟨some 1, "Green Acres", "12 Long Street Name"⟩],
   [⟨some 2, 1, "A-101", none⟩], [], [], 3⟩

/-- Concrete store: flat 2 with a bill (3) and a tenant (4) attached. -/
def storeC1b : Store :=
  ⟨[], [⟨some 1, "Green Acres", "12 Long Street Name"⟩],
   [⟨some 2, 1, "A-101", none⟩],
   [⟨some 4, 9, 2, ⟨5000, 0⟩, ⟨2024, 1, 1⟩, none, true⟩],
   [⟨some 3, 2, "JANUARY", 2024, ⟨1000, 0⟩, "UNPAID"⟩], 5⟩

/-- A stored OWNER account used by the concrete witnesses. -/
def ownerU : User :=
  ⟨some 1, "own1", "own@x.com", "Own", "Er", none, Role.OWNER, true, false⟩

/-- Concrete store with one society, a flat owned by `ownerU` (pk 2) and
an ownerless flat (pk 3). -/
def storeFlats : Store :=
  ⟨[ownerU], [⟨some 5, "Green Acres", "12 Long Street Name"⟩],
   [⟨some 2, 5, "A-1", some 1⟩, ⟨some 3, 5, "B-2", none⟩], [], [], 6⟩

/-- A stored TENANT account and its lease, for the deletion witness. -/
def tenantU : User :=
  ⟨some 6, "ten1", "ten@x.com", "Ten", "Ant", none, Role.TENANT, true, false⟩

/-- Store extending `storeFlats` with `tenantU` renting flat 2. -/
def storeTen : Store :=
  ⟨[ownerU, tenantU], [⟨some 5, "Green Acres", "12 Long Street Name"⟩],
   [⟨some 2, 5, "A-1", some 1⟩, ⟨some 3, 5, "B-2", none⟩],
   [⟨some 7, 6, 2, ⟨5000, 0⟩, ⟨2024, 1, 1⟩, none, true⟩], [], 8⟩

/-- Store with a single UNPAID bill, for the toggle witness. -/
def storeBillW : Store :=
  ⟨[ownerU], [⟨some 5, "Green Acres", "12 Long Street Name"⟩],
   [⟨some 2, 5, "A-1", some 1⟩], [],
   [⟨some 4, 2, "MAY", 2024, ⟨1000, 0⟩, "UNPAID"⟩], 8⟩

/-- No two Tenant rows share a primary key (count-based). -/
def tenantPkCountLe1 (s : Store) : Prop :=
  ∀ k : Nat, (s.tenants.filter fun t => t.pk == some k).length ≤ 1

/-- No two Tenant rows share a user (the one-to-one constraint of
`Tenant.user`, count-based). -/
def tenantUserCountLe1 (s : Store) : Prop :=
  ∀ uid : Nat, (s.tenants.filter fun t => t.user == uid).length ≤ 1

/-- Every stored Tenant primary key is below the autoincrement counter. -/
def tenantPkBound (s : Store) : Prop :=
  ∀ t ∈ s.tenants, ∀ p, t.pk = some p → p < s.nextId

/-- The database-enforced invariants on the Tenant table. -/
def tenantInv (s : Store) : Prop :=
  tenantPkBound s ∧ tenantPkCountLe1 s ∧ tenantUserCountLe1 s

/-- The claimed property: at most one active Tenant row per user. -/
def atMostOneActiveTenantPerUser (s : Store) : Prop :=
  ∀ uid : Nat,
    (s.tenants.filter fun t => t.user == uid && t.is_active).length ≤ 1

/-- C1: the claim says deleting a Society with a Flat (or a Flat with a
Bill or Tenant) fails with an integrity-error notice and the records
remain.  The code declares `on_delete=CASCADE` on `Flat.society`,
`MaintenanceBill.flat` and `Tenant.flat`, so both deletes succeed,
cascade-delete the dependents and queue a success notice — the handlers'
`except IntegrityError` branches are unreachable. -/
theorem C1_delete_cascades_instead_of_failing :
    delete_society storeC1a 1 =
      Except.ok ⟨⟨[], [], [], [], [], 3⟩,
        [nsucc "Society \"Green Acres\" deleted successfully."],
        Response.redirect "core:society_list"⟩ ∧
    delete_flat storeC1b 2 =
      Except.ok ⟨⟨[], [⟨some 1, "Green Acres", "12 Long Street Name"⟩],
          [], [], [], 5⟩,
        [nsucc "Flat A-101 deleted successfully."],
        Response.redirect "core:flat_list"⟩ := by
  constructor <;> rfl

/-- C2 counterexample: (1) a validation failure in `create_society`
responds with a page `render`, not a redirect; (2) `delete_society` on a
missing primary key lets the framework's Http404 exception escape, with
no notice — so not every failure yields a redirect-with-notice, and not
every handler returns without propagating an exception. -/
theorem C2_counterexample_render_and_404 :
    create_society emptyStore ⟨true, "ab", "Some Address 123456"⟩ =
      Except.ok ⟨emptyStore,
        [nerr "Validation error: Society name must be at least 3 characters long"],
        Response.render "admin/society_list.html"⟩ ∧
    delete_society emptyStore 99 = Except.error PyExc.http404 := by
  constructor <;> rfl

/-- C4: `User.save()` forces role ADMIN for any superuser — on the
coercion itself, on INSERT (the saved row is ADMIN and is in the store),
and on UPDATE (every stored row with that pk ends up ADMIN). -/
theorem C4_superuser_forces_admin_role :
    (∀ u : User, u.is_superuser = true → (userSavePre u).role = Role.ADMIN) ∧
    (∀ (s : Store) (u : User) (s2 : Store) (u3 : User),
      saveNewUser s u = Except.ok (s2, u3) → u.is_superuser = true →
        u3.role = Role.ADMIN ∧ u3 ∈ s2.users) ∧
    (∀ (s : Store) (u : User) (s2 : Store),
      saveExistingUser s u = Except.ok s2 → u.is_superuser = true →
        ∀ x ∈ s2.users, x.pk = u.pk → x.role = Role.ADMIN) := by
  refine ⟨?_, ?_, ?_⟩
  · intro u h
    simp [userSavePre, h]
  · intro s u s2 u3 h hsup
    simp only [saveNewUser] at h
    split at h
    · exact absurd h (by simp)
    · injection h with h2
      injection h2 with hs hu
      subst hs; subst hu
      constructor
      · simp [userSavePre, hsup]
      · simp
  · intro s u s2 h hsup x hx hpk
    simp only [saveExistingUser] at h
    split at h
    · exact absurd h (by simp)
    · injection h with h2
      subst h2
      simp only [List.mem_map] at hx
      obtain ⟨y, _, hy⟩ := hx
      by_cases hc : (y.pk == (userSavePre u).pk) = true
      · rw [if_pos hc] at hy
        subst hy
        simp [userSavePre, hsup]
      · rw [if_neg hc] at hy
        subst hy
        exfalso
        apply hc
        simp only [userSavePre, hsup, if_true]
        simp [hpk]

/-- C4 witness: a concrete superuser row saved through `saveNewUser` into
the empty store comes out with role ADMIN. -/
theorem C4_superuser_forces_admin_role_witness :
    (⟨some 1, "root", "root@x.com", "R", "T", none, Role.ADMIN, true, true⟩
        : User).role = Role.ADMIN ∧
    (⟨some 1, "root", "root@x.com", "R", "T", none, Role.ADMIN, true, true⟩
        : User) ∈
      (Store.mk [⟨some 1, "root", "root@x.com", "R", "T", none, Role.ADMIN,
        true, true⟩] [] [] [] [] 2).users :=
  C4_superuser_forces_admin_role.2.1 emptyStore
    ⟨none, "root", "root@x.com", "R", "T", none, Role.TENANT, true, true⟩
    (Store.mk [⟨some 1, "root", "root@x.com", "R", "T", none, Role.ADMIN,
      true, true⟩] [] [] [] [] 2)
    ⟨some 1, "root", "root@x.com", "R", "T", none, Role.ADMIN, true, true⟩
    (by rfl) (by rfl)

/-- C8: the authorization decision table of the three decorators:
unauthenticated requests are redirected to login with no notice;
authenticated requests with the wrong role are redirected home with an
access-denied error notice; requests with the matching role run the
wrapped view unchanged. -/
theorem C8_role_gate_decision_table :
    (∀ (ctx : AuthCtx) (s : Store) (v : Except PyExc HResult),
      ctx.authenticated = false →
        admin_required ctx s v =
          Except.ok ⟨s, [], Response.redirect "core:login"⟩ ∧
        owner_required ctx s v =
          Except.ok ⟨s, [], Response.redirect "core:login"⟩ ∧
        tenant_required ctx s v =
          Except.ok ⟨s, [], Response.redirect "core:login"⟩) ∧
    (∀ (ctx : AuthCtx) (s : Store) (v : Except PyExc HResult),
      ctx.authenticated = true → ctx.role ≠ Role.ADMIN →
        admin_required ctx s v =
          Except.ok ⟨s,
            [nerr "Access denied. Administrator privileges required."],
            Response.redirect "core:index"⟩) ∧
    (∀ (ctx : AuthCtx) (s : Store) (v : Except PyExc HResult),
      ctx.authenticated = true → ctx.role ≠ Role.OWNER →
        owner_required ctx s v =
          Except.ok ⟨s, [nerr "Access denied. Owner privileges required."],
            Response.redirect "core:index"⟩) ∧
    (∀ (ctx : AuthCtx) (s : Store) (v : Except PyExc HResult),
      ctx.authenticated = true → ctx.role ≠ Role.TENANT →
        tenant_required ctx s v =
          Except.ok ⟨s, [nerr "Access denied. Tenant privileges required."],
            Response.redirect "core:index"⟩) ∧
    (∀ (ctx : AuthCtx) (s : Store) (v : Except PyExc HResult),
      ctx.authenticated = true → ctx.role = Role.ADMIN →
        admin_required ctx s v = v) ∧
    (∀ (ctx : AuthCtx) (s : Store) (v : Except PyExc HResult),
      ctx.authenticated = true → ctx.role = Role.OWNER →
        owner_required ctx s v = v) ∧
    (∀ (ctx : AuthCtx) (s : Store) (v : Except PyExc HResult),
      ctx.authenticated = true → ctx.role = Role.TENANT →
        tenant_required ctx s v = v) := by
  refine ⟨?_, ?_, ?_, ?_, ?_, ?_, ?_⟩ <;>
    intro ctx s v h <;>
    first
      | (exact ⟨by simp [admin_required, h], by simp [owner_required, h],
          by simp [tenant_required, h]⟩)
      | (intro h2
         simp [admin_required, owner_required, tenant_required, h, h2])

/-- C8 witness: concrete requests through `admin_required` — an
unauthenticated one is sent to login, an authenticated OWNER is denied,
an authenticated ADMIN reaches the view. -/
theorem C8_role_gate_decision_table_witness :
    admin_required ⟨false, Role.ADMIN⟩ emptyStore
        (Except.error PyExc.valueError) =
      Except.ok ⟨emptyStore, [], Response.redirect "core:login"⟩ ∧
    admin_required ⟨true, Role.OWNER⟩ emptyStore
        (Except.error PyExc.valueError) =
      Except.ok ⟨emptyStore,
        [nerr "Access denied. Administrator privileges required."],
        Response.redirect "core:index"⟩ ∧
    admin_required ⟨true, Role.ADMIN⟩ emptyStore
        (Except.error PyExc.valueError) = Except.error PyExc.valueError :=
  ⟨(C8_role_gate_decision_table.1 ⟨false, Role.ADMIN⟩ emptyStore
      (Except.error PyExc.valueError) rfl).1,
   C8_role_gate_decision_table.2.1 ⟨true, Role.OWNER⟩ emptyStore
      (Except.error PyExc.valueError) rfl (by decide),
   C8_role_gate_decision_table.2.2.2.2.1 ⟨true, Role.ADMIN⟩ emptyStore
      (Except.error PyExc.valueError) rfl rfl⟩

theorem find?_map_of_pred {α : Type} (l : List α) (p : α → Bool) (f : α → α)
    (h : ∀ x, p (f x) = p x) : (l.map f).find? p = (l.find? p).map f := by
  induction l with
  | nil => rfl
  | cons a rest ih =>
    simp only [List.map_cons, List.find?]
    rw [h a]
    cases hpa : p a
    · exact ih
    · rfl

theorem eq_of_filter_len_le_one {α : Type} (l : List α) (p : α → Bool)
    (hlen : (l.filter p).length ≤ 1) {a b : α} (ha : a ∈ l) (hb : b ∈ l)
    (hpa : p a = true) (hpb : p b = true) : a = b := by
  have ha' : a ∈ l.filter p := List.mem_filter.mpr ⟨ha, hpa⟩
  have hb' : b ∈ l.filter p := List.mem_filter.mpr ⟨hb, hpb⟩
  cases hf : l.filter p with
  | nil => rw [hf] at ha'; simp at ha'
  | cons x xs =>
    cases xs with
    | nil =>
      rw [hf] at ha' hb'
      simp only [List.mem_singleton] at ha' hb'
      rw [ha', hb']
    | cons y ys => rw [hf] at hlen; simp at hlen

theorem toggle_bill_step (s : Store) (k : Nat) (b : Bill)
    (hfind : findBill s k = some b)
    (huniq : ∀ x ∈ s.bills, x.pk ≠ b.pk →
      ¬(x.flat = b.flat ∧ x.month = b.month ∧ x.year = b.year)) :
    ∃ n : Notice,
      toggle_bill_status s k =
        Except.ok ⟨{ s with bills := s.bills.map (fun x =>
            if x.pk == b.pk then { b with status := billStatusFlip b.status }
            else x) }, [n], Response.redirect "core:bill_list"⟩ := by
  have hany : (s.bills.any fun x =>
      x.pk != b.pk && x.flat == b.flat && x.month == b.month &&
        x.year == b.year) = false := by
    rw [List.any_eq_false]
    intro x hx
    simp only [Bool.and_eq_true, bne_iff_ne, beq_iff_eq, not_and]
    intro h1 h2
    exact huniq x hx h1.1.1 ⟨h1.1.2, h1.2, h2⟩
  simp only [toggle_bill_status, hfind, saveExistingBill, hany,
    Bool.false_eq_true, if_false]
  exact ⟨_, rfl⟩

theorem findBill_replace (s : Store) (k : Nat) (b b2 : Bill)
    (hpk2 : b2.pk = b.pk) (hfind : findBill s k = some b) :
    findBill { s with bills := s.bills.map fun x =>
        if x.pk == b.pk then b2 else x } k = some b2 := by
  unfold findBill at hfind ⊢
  rw [find?_map_of_pred]
  · rw [hfind]
    simp
  · intro x
    by_cases hc : (x.pk == b.pk) = true
    · simp only [if_pos hc, hpk2]
      rw [beq_iff_eq] at hc
      rw [hc]
    · simp only [if_neg hc]

/-- C10: toggling a bill's payment status flips UNPAID/PAID, keeps the
bill's flat, month, year and amount (only the status field of the row
changes), and toggling twice restores the original row.  The hypotheses
state that the bill exists and that the store satisfies the database
constraints (valid status choice, unique `(flat, month, year)`). -/
theorem C10_toggle_bill_involution :
    ∀ (s : Store) (k : Nat) (b : Bill),
      findBill s k = some b →
      (b.status = "UNPAID" ∨ b.status = "PAID") →
      (∀ x ∈ s.bills, x.pk ≠ b.pk →
        ¬(x.flat = b.flat ∧ x.month = b.month ∧ x.year = b.year)) →
      ∃ r r2 : HResult,
        toggle_bill_status s k = Except.ok r ∧
        findBill r.store k =
          some { b with status := billStatusFlip b.status } ∧
        r.response = Response.redirect "core:bill_list" ∧
        toggle_bill_status r.store k = Except.ok r2 ∧
        findBill r2.store k = some b := by
  intro s k b hfind hst huniq
  obtain ⟨n1, h1⟩ := toggle_bill_step s k b hfind huniq
  have hfind1 : findBill { s with bills := s.bills.map fun x =>
      if x.pk == b.pk then { b with status := billStatusFlip b.status }
      else x } k = some { b with status := billStatusFlip b.status } :=
    findBill_replace s k b _ rfl hfind
  have hb2flip : ({ b with status := billStatusFlip b.status } : Bill).status
      = billStatusFlip b.status := rfl
  have hff : billStatusFlip (billStatusFlip b.status) = b.status := by
    rcases hst with h | h <;> rw [h] <;> rfl
  have hflipflip :
      ({ { b with status := billStatusFlip b.status } with
          status := billStatusFlip (billStatusFlip b.status) } : Bill) = b := by
    rw [hff]
  have huniq1 : ∀ x ∈ (s.bills.map fun y =>
        if y.pk == b.pk then { b with status := billStatusFlip b.status }
        else y),
      x.pk ≠ ({ b with status := billStatusFlip b.status } : Bill).pk →
      ¬(x.flat = ({ b with status := billStatusFlip b.status } : Bill).flat ∧
        x.month = ({ b with status := billStatusFlip b.status } : Bill).month ∧
        x.year = ({ b with status := billStatusFlip b.status } : Bill).year) := by
    intro x hx hne
    simp only [List.mem_map] at hx
    obtain ⟨y, hy, hxy⟩ := hx
    by_cases hc : (y.pk == b.pk) = true
    · rw [if_pos hc] at hxy
      subst hxy
      exact absurd rfl hne
    · rw [if_neg hc] at hxy
      subst hxy
      have hne2 : y.pk ≠ b.pk := by
        intro hcc
        rw [hcc] at hc
        exact hc (beq_self_eq_true b.pk)
      exact huniq y hy hne2
  obtain ⟨n2, h2⟩ := toggle_bill_step _ k _ hfind1 huniq1
  rw [hflipflip] at h2
  refine ⟨_, _, h1, hfind1, rfl, h2, ?_⟩
  exact findBill_replace _ k _ b rfl hfind1

theorem cleanResWith_unit_ok_iff (l : List String) :
    cleanResWith l () = Except.ok () ↔ l = [] := by
  cases l <;> simp [cleanResWith]

theorem if_nil_iff_pos (c : Prop) [Decidable c] (m : String) :
    ((if c then ([] : List String) else [m]) = []) ↔ c := by
  by_cases h : c <;> simp [h]

theorem if_nil_iff_neg (c : Prop) [Decidable c] (m : String) :
    ((if c then [m] else ([] : List String)) = []) ↔ ¬c := by
  by_cases h : c <;> simp [h]

theorem billFullClean_ok_iff (s : Store) (cy : Int) (b : Bill) :
    billFullClean s cy b = Except.ok () ↔
      (billNonYearChecksOk s b ∧ 2000 ≤ b.year ∧ b.year ≤ cy + 1) := by
  simp only [billFullClean, billNonYearChecksOk]
  rw [cleanResWith_unit_ok_iff]
  cases hf : findFlat s b.flat <;>
    simp only [hf, List.append_eq_nil, if_nil_iff_pos, if_nil_iff_neg,
      Bool.and_eq_true, Bool.not_eq_true', decide_eq_true_eq, ge_iff_le,
      bne_iff_ne, beq_iff_eq, not_and, and_true, true_and, and_assoc]
  · constructor
    · rintro ⟨hm, hy1, hy2, ha1, ha2, hst, hyr, hdup, hu⟩
      refine ⟨hm, ha1, ha2, hst, hdup, hu, hy1, ?_⟩
      by_cases hz : b.year = 0
      · omega
      · have := hyr hz
        omega
    · rintro ⟨hm, ha1, ha2, hst, hdup, hu, hy1, hy2⟩
      exact ⟨hm, hy1, by omega, ha1, ha2, hst, fun _ => by omega, hdup, hu⟩
  · constructor
    · rintro ⟨hm, hy1, hy2, ha1, ha2, hst, hyr, how, hdup, hu⟩
      refine ⟨hm, ha1, ha2, hst, how, hdup, hu, hy1, ?_⟩
      by_cases hz : b.year = 0
      · omega
      · have := hyr hz
        omega
    · rintro ⟨hm, ha1, ha2, hst, how, hdup, hu, hy1, hy2⟩
      exact ⟨hm, hy1, by omega, ha1, ha2, hst, fun _ => by omega, how, hdup, hu⟩

/-- C6: `MaintenanceBill` validation accepts a year exactly when
`2000 ≤ year ≤ current_year + 1` (given the remaining, non-year checks),
and `create_bill` leaves the store unchanged with an error notice for any
submitted year outside the range — in particular year 3000 (see the
witness). -/
theorem C6_bill_year_range :
    (∀ (s : Store) (cy : Int) (b : Bill),
      billFullClean s cy b = Except.ok () ↔
        (billNonYearChecksOk s b ∧ 2000 ≤ b.year ∧ b.year ≤ cy + 1)) ∧
    (∀ (s : Store) (cy : Int) (f : BillForm) (r : HResult) (y : Int),
      f.post = true → pyInt (f.year.getD "") = some y →
      (y < 2000 ∨ y > cy + 1) → create_bill s cy f = Except.ok r →
      r.store = s ∧ hasErrorNotice r.notices = true) := by
  constructor
  · exact billFullClean_ok_iff
  · intro s cy f r y hpost hy hrange hrun
    simp only [create_bill, hpost, if_true] at hrun
    split at hrun
    · injection hrun with h
      subst h
      exact ⟨rfl, rfl⟩
    · split at hrun
      · injection hrun with h
        subst h
        exact ⟨rfl, rfl⟩
      · split at hrun
        · rename_i yv av hparse hdec
          rw [hy] at hparse
          injection hparse with hyv
          subst hyv
          split at hrun
          · injection hrun with h
            subst h
            exact ⟨rfl, rfl⟩
          · split at hrun
            · injection hrun with h
              subst h
              exact ⟨rfl, rfl⟩
            · injection hrun with h
              subst h
              exact ⟨rfl, rfl⟩
            · rename_i u hclean
              split at hrun
              · injection hrun with h
                subst h
                exact ⟨rfl, rfl⟩
              · exfalso
                have h2 : 2000 ≤ y ∧ y ≤ cy + 1 :=
                  ((billFullClean_ok_iff s cy _).mp hclean).2
                rcases hrange with hr | hr <;> omega
        · injection hrun with h
          subst h
          exact ⟨rfl, rfl⟩

/-- C6 witness: a bill for 2024 on the owned flat passes validation in a
concrete store, and submitting year 3000 (current year 2026) leaves the
store unchanged with an error notice. -/
theorem C6_bill_year_range_witness :
    billFullClean storeFlats 2024
      ⟨none, 2, "MAY", 2024, ⟨1000, 0⟩, "UNPAID"⟩ = Except.ok () ∧
    (⟨storeFlats,
      [nerr "Validation error: Year cannot be more than 2027"],
      Response.render "admin/bill_list.html"⟩ : HResult).store = storeFlats ∧
    hasErrorNotice
      (⟨storeFlats,
        [nerr "Validation error: Year cannot be more than 2027"],
        Response.render "admin/bill_list.html"⟩ : HResult).notices = true :=
  ⟨(C6_bill_year_range.1 storeFlats 2024
      ⟨none, 2, "MAY", 2024, ⟨1000, 0⟩, "UNPAID"⟩).mpr
      (by
        refine ⟨⟨by decide, by decide, by decide, by decide, ?_, by decide,
          by decide⟩, by decide, by decide⟩
        show (some 1 : Option Nat) ≠ none
        decide),
   C6_bill_year_range.2 storeFlats 2026
      ⟨true, some "2", some "MAY", some "3000", some "100", none⟩
      ⟨storeFlats,
        [nerr "Validation error: Year cannot be more than 2027"],
        Response.render "admin/bill_list.html"⟩ 3000
      rfl rfl (Or.inr (by decide)) rfl⟩

theorem cleanResWith_mem_error {α : Type} (l : List String) (a : α)
    (m : String) (hm : m ∈ l) :
    ∃ msgs, cleanResWith l a = Except.error (PyExc.validationError msgs) ∧
      m ∈ msgs := by
  cases l with
  | nil => simp at hm
  | cons x xs => exact ⟨x :: xs, rfl, hm⟩

theorem billFullClean_ownerless_error (s : Store) (cy : Int) (b : Bill)
    (fl : Flat) (hf : findFlat s b.flat = some fl) (how : fl.owner = none) :
    ∃ msgs, billFullClean s cy b =
        Except.error (PyExc.validationError msgs) ∧
      "Cannot create bill for flat without an owner" ∈ msgs := by
  simp only [billFullClean]
  apply cleanResWith_mem_error
  simp [hf, how]

/-- C7: creating a `MaintenanceBill` for a flat whose owner is null is
rejected by validation (with the dedicated message), and the `create_bill`
handler then leaves the store unchanged and queues an error notice. -/
theorem C7_bill_requires_flat_owner :
    (∀ (s : Store) (cy : Int) (b : Bill) (fl : Flat),
      findFlat s b.flat = some fl → fl.owner = none →
      ∃ msgs, billFullClean s cy b =
          Except.error (PyExc.validationError msgs) ∧
        "Cannot create bill for flat without an owner" ∈ msgs) ∧
    (∀ (s : Store) (cy : Int) (f : BillForm) (r : HResult) (fl : Flat),
      f.post = true →
      findFlat s ((charsToNat? (f.flat.getD "").data).getD 0) = some fl →
      fl.owner = none →
      create_bill s cy f = Except.ok r →
      r.store = s ∧ hasErrorNotice r.notices = true) := by
  constructor
  · exact billFullClean_ownerless_error
  · intro s cy f r fl hpost hfind how hrun
    simp only [create_bill, hpost, if_true] at hrun
    split at hrun
    · injection hrun with h
      subst h
      exact ⟨rfl, rfl⟩
    · split at hrun
      · injection hrun with h
        subst h
        exact ⟨rfl, rfl⟩
      · split at hrun
        · rename_i yv av hparse hdec
          split at hrun
          · injection hrun with h
            subst h
            exact ⟨rfl, rfl⟩
          · rename_i fl0 heqFlat
            rw [hfind] at heqFlat
            injection heqFlat with hfl0
            subst hfl0
            split at hrun
            · injection hrun with h
              subst h
              exact ⟨rfl, rfl⟩
            · injection hrun with h
              subst h
              exact ⟨rfl, rfl⟩
            · rename_i u hclean
              exfalso
              have hfind2 : List.find? (fun x => x.pk == some
                  ((charsToNat? (f.flat.getD "").data).getD 0)) s.flats =
                  some fl := hfind
              have hpk := List.find?_some hfind2
              simp only [beq_iff_eq] at hpk
              obtain ⟨msgs, herr, -⟩ :=
                billFullClean_ownerless_error s cy
                  ⟨none, fl.pk.getD 0, f.month.getD "", yv, av,
                    f.status.getD "UNPAID"⟩ fl
                  (by
                    show findFlat s (fl.pk.getD 0) = some fl
                    rw [hpk]
                    exact hfind) how
              rw [herr] at hclean
              exact absurd hclean (by simp)
        · injection hrun with h
          subst h
          exact ⟨rfl, rfl⟩

/-- C7 witness: a bill submitted for the ownerless flat (pk 3, owner null)
in the concrete store fails validation with the dedicated message, and the
handler leaves the store unchanged with an error notice. -/
theorem C7_bill_requires_flat_owner_witness :
    (∃ msgs, billFullClean storeFlats 2024
        ⟨none, 3, "MAY", 2024, ⟨1000, 0⟩, "UNPAID"⟩ =
          Except.error (PyExc.validationError msgs) ∧
        "Cannot create bill for flat without an owner" ∈ msgs) ∧
    ((⟨storeFlats,
        [nerr "Validation error: Cannot create bill for flat without an owner"],
        Response.render "admin/bill_list.html"⟩ : HResult).store = storeFlats ∧
      hasErrorNotice
        (⟨storeFlats,
          [nerr "Validation error: Cannot create bill for flat without an owner"],
          Response.render "admin/bill_list.html"⟩ : HResult).notices = true) :=
  ⟨C7_bill_requires_flat_owner.1 storeFlats 2024
      ⟨none, 3, "MAY", 2024, ⟨1000, 0⟩, "UNPAID"⟩
      ⟨some 3, 5, "B-2", none⟩ rfl rfl,
   C7_bill_requires_flat_owner.2 storeFlats 2024
      ⟨true, some "3", some "MAY", some "2024", some "100", none⟩
      ⟨storeFlats,
        [nerr "Validation error: Cannot create bill for flat without an owner"],
        Response.render "admin/bill_list.html"⟩
      ⟨some 3, 5, "B-2", none⟩ rfl rfl rfl rfl⟩

theorem tenantFullClean_early_start_error (s : Store) (t : Tenant)
    (hd : dateLt t.start_date ⟨2000, 1, 1⟩ = true) :
    ∃ msgs, tenantFullClean s t =
        Except.error (PyExc.validationError msgs) ∧
      "Start date cannot be before year 2000" ∈ msgs := by
  simp only [tenantFullClean]
  apply cleanResWith_mem_error
  simp [hd]

theorem tenantFullClean_ok_no_early (s : Store) (t : Tenant) (u : Unit)
    (h : tenantFullClean s t = Except.ok u) :
    dateLt t.start_date ⟨2000, 1, 1⟩ = false := by
  by_contra hne
  rw [Bool.not_eq_false] at hne
  obtain ⟨msgs, herr, -⟩ := tenantFullClean_early_start_error s t hne
  rw [herr] at h
  exact absurd h (by simp)

/-- C9: a tenant creation whose submitted start date parses to a date
before 2000-01-01 (e.g. 1999-01-01) is always rejected: the handler
returns with the store unchanged — so neither the User nor the Tenant is
persisted — and an error notice. -/
theorem C9_tenant_early_start_rejected :
    ∀ (s : Store) (me : Nat) (f : TenantForm) (r : HResult) (d : PyDate),
      f.post = true →
      parseDate (f.start_date.getD "") = some d →
      dateLt d ⟨2000, 1, 1⟩ = true →
      create_tenant s me f = Except.ok r →
      r.store = s ∧ hasErrorNotice r.notices = true := by
  intro s me f r d hpost hdate hlt hrun
  simp only [create_tenant, hpost, if_true] at hrun
  split at hrun
  · injection hrun with h
    subst h
    exact ⟨rfl, rfl⟩
  · split at hrun
    · injection hrun with h
      subst h
      exact ⟨rfl, rfl⟩
    · split at hrun
      · rename_i rent sd hparseR hparseD
        rw [hdate] at hparseD
        injection hparseD with hsd
        subst hsd
        split at hrun
        · injection hrun with h
          subst h
          exact ⟨rfl, rfl⟩
        · split at hrun
          · injection hrun with h
            subst h
            exact ⟨rfl, rfl⟩
          · injection hrun with h
            subst h
            exact ⟨rfl, rfl⟩
          · split at hrun
            · injection hrun with h
              subst h
              exact ⟨rfl, rfl⟩
            · rename_i s2u hsaveU
              split at hrun
              · injection hrun with h
                subst h
                exact ⟨rfl, rfl⟩
              · injection hrun with h
                subst h
                exact ⟨rfl, rfl⟩
              · rename_i u hclean
                exfalso
                have hfalse := tenantFullClean_ok_no_early _ _ _ hclean
                have h2 : dateLt d ⟨2000, 1, 1⟩ = false := hfalse
                rw [hlt] at h2
                exact Bool.noConfusion h2
      · injection hrun with h
        subst h
        exact ⟨rfl, rfl⟩

/-- C9 witness: a concrete tenant-creation request with start date
1999-01-01 in `storeFlats` (flat 2 owned by user 1) leaves the store
unchanged with a validation-error notice. -/
theorem C9_tenant_early_start_rejected_witness :
    (⟨storeFlats,
      [nerr "Validation error: Start date cannot be before year 2000"],
      Response.render "owner/tenant_list.html"⟩ : HResult).store = storeFlats ∧
    hasErrorNotice
      (⟨storeFlats,
        [nerr "Validation error: Start date cannot be before year 2000"],
        Response.render "owner/tenant_list.html"⟩ : HResult).notices = true :=
  C9_tenant_early_start_rejected storeFlats 1
    ⟨true, "ten@x.com", "ten1", "Ten", "Ant", "", "pw123", some "2",
      some "5000", some "1999-01-01"⟩
    ⟨storeFlats,
      [nerr "Validation error: Start date cannot be before year 2000"],
      Response.render "owner/tenant_list.html"⟩
    ⟨1999, 1, 1⟩ rfl rfl rfl rfl

/-- C10 witness: toggling the concrete UNPAID bill (pk 4) yields a PAID
row with all other fields unchanged, and toggling again restores the
original row. -/
theorem C10_toggle_bill_involution_witness :
    ∃ r r2 : HResult,
      toggle_bill_status storeBillW 4 = Except.ok r ∧
      findBill r.store 4 =
        some ⟨some 4, 2, "MAY", 2024, ⟨1000, 0⟩,
          billStatusFlip "UNPAID"⟩ ∧
      r.response = Response.redirect "core:bill_list" ∧
      toggle_bill_status r.store 4 = Except.ok r2 ∧
      findBill r2.store 4 =
        some ⟨some 4, 2, "MAY", 2024, ⟨1000, 0⟩, "UNPAID"⟩ :=
  C10_toggle_bill_involution storeBillW 4
    ⟨some 4, 2, "MAY", 2024, ⟨1000, 0⟩, "UNPAID"⟩
    rfl (Or.inl rfl) (by decide)

/-- C5: tenant writes are all-or-nothing.  (1) `create_tenant` always
returns normally with either the store unchanged (any failure, including
a Tenant validation failure after the User insert, rolls the transaction
back) or exactly one new User and one new Tenant row referencing it
appended, everything else untouched.  (2) `delete_tenant`, when it
returns, has either left the store unchanged or removed the Tenant row
and its User row together. -/
theorem C5_tenant_writes_atomic :
    (∀ (s : Store) (me : Nat) (f : TenantForm),
      ∃ r : HResult, create_tenant s me f = Except.ok r ∧
        (r.store = s ∨
         ∃ (u : User) (t : Tenant),
           r.store.users = s.users ++ [u] ∧
           r.store.tenants = s.tenants ++ [t] ∧
           some t.user = u.pk ∧
           r.store.societies = s.societies ∧
           r.store.flats = s.flats ∧
           r.store.bills = s.bills)) ∧
    (∀ (s : Store) (me k : Nat) (post : Bool) (r : HResult),
      delete_tenant s me k post = Except.ok r →
        (r.store = s ∨
         ∃ t : Tenant, t ∈ s.tenants ∧ t.pk = some k ∧
           (∀ t2 ∈ r.store.tenants, t2.pk ≠ some k) ∧
           (∀ u ∈ r.store.users, u.pk ≠ some t.user))) := by
  constructor
  · intro s me f
    simp only [create_tenant]
    split
    · split
      · exact ⟨_, rfl, Or.inl rfl⟩
      · split
        · exact ⟨_, rfl, Or.inl rfl⟩
        · split
          · split
            · exact ⟨_, rfl, Or.inl rfl⟩
            · split
              · exact ⟨_, rfl, Or.inl rfl⟩
              · exact ⟨_, rfl, Or.inl rfl⟩
              · split
                · exact ⟨_, rfl, Or.inl rfl⟩
                · split
                  · exact ⟨_, rfl, Or.inl rfl⟩
                  · exact ⟨_, rfl, Or.inl rfl⟩
                  · split
                    · exact ⟨_, rfl, Or.inl rfl⟩
                    · rename_i x4 fl heq4 x3 ucleaned heq3 x2 s2 usaved heqU
                        x1 a1 heqC x0 s3 t2 heqT
                      simp only [saveNewUser] at heqU
                      split at heqU
                      · exact absurd heqU (by simp)
                      · injection heqU with hp
                        injection hp with hs2 husaved
                        subst hs2
                        subst husaved
                        simp only [saveNewTenant] at heqT
                        split at heqT
                        · exact absurd heqT (by simp)
                        · injection heqT with hp2
                          injection hp2 with hs3 ht2
                          subst hs3
                          subst ht2
                          exact ⟨_, rfl,
                            Or.inr ⟨_, _, rfl, rfl, rfl, rfl, rfl, rfl⟩⟩
          · exact ⟨_, rfl, Or.inl rfl⟩
    · exact ⟨_, rfl, Or.inl rfl⟩
  · intro s me k post r hrun
    simp only [delete_tenant] at hrun
    split at hrun
    · split at hrun
      · exact absurd hrun (by simp)
      · rename_i t heqT
        injection hrun with h
        subst h
        have heqT2 : List.find? (fun t => t.pk == some k &&
            s.flats.any fun fl => fl.pk == some t.flat &&
              fl.owner == some me) s.tenants = some t := heqT
        have hpk := List.find?_some heqT2
        simp only [Bool.and_eq_true, beq_iff_eq] at hpk
        refine Or.inr ⟨t, List.mem_of_find?_eq_some heqT2, hpk.1, ?_, ?_⟩
        · intro t2 ht2
          simp only [deleteUserCascade, deleteTenantRow, List.mem_filter,
            bne_iff_ne] at ht2
          exact ht2.1.2
        · intro u hu
          simp only [deleteUserCascade, deleteTenantRow, List.mem_filter,
            bne_iff_ne] at hu
          exact hu.2
    · injection hrun with h
      subst h
      exact Or.inl rfl

/-- C5 witness: deleting the concrete tenant (pk 7, user 6) from
`storeTen` removes both the Tenant row and its User row in one step. -/
theorem C5_tenant_writes_atomic_witness :
    (⟨⟨[ownerU], [⟨some 5, "Green Acres", "12 Long Street Name"⟩],
        [⟨some 2, 5, "A-1", some 1⟩, ⟨some 3, 5, "B-2", none⟩], [], [], 8⟩,
      [nsucc "Tenant account deleted successfully."],
      Response.redirect "core:tenant_list"⟩ : HResult).store = storeTen ∨
    ∃ t : Tenant, t ∈ storeTen.tenants ∧ t.pk = some 7 ∧
      (∀ t2 ∈ (⟨⟨[ownerU], [⟨some 5, "Green Acres", "12 Long Street Name"⟩],
          [⟨some 2, 5, "A-1", some 1⟩, ⟨some 3, 5, "B-2", none⟩], [], [], 8⟩,
        [nsucc "Tenant account deleted successfully."],
        Response.redirect "core:tenant_list"⟩ : HResult).store.tenants,
        t2.pk ≠ some 7) ∧
      (∀ u ∈ (⟨⟨[ownerU], [⟨some 5, "Green Acres", "12 Long Street Name"⟩],
          [⟨some 2, 5, "A-1", some 1⟩, ⟨some 3, 5, "B-2", none⟩], [], [], 8⟩,
        [nsucc "Tenant account deleted successfully."],
        Response.redirect "core:tenant_list"⟩ : HResult).store.users,
        u.pk ≠ some t.user) :=
  C5_tenant_writes_atomic.2 storeTen 1 7 true
    ⟨⟨[ownerU], [⟨some 5, "Green Acres", "12 Long Street Name"⟩],
        [⟨some 2, 5, "A-1", some 1⟩, ⟨some 3, 5, "B-2", none⟩], [], [], 8⟩,
      [nsucc "Tenant account deleted successfully."],
      Response.redirect "core:tenant_list"⟩ rfl

theorem length_filter_and_le {α : Type} (l : List α) (p q : α → Bool) :
    (l.filter fun x => p x && q x).length ≤ (l.filter p).length := by
  induction l with
  | nil => simp
  | cons a rest ih =>
    simp only [List.filter_cons]
    by_cases hp : p a = true
    · by_cases hq : q a = true
      · simp only [hp, hq, Bool.and_self, if_true, List.length_cons]
        exact Nat.succ_le_succ ih
      · have hpq : (p a && q a) = false := by simp [hq]
        rw [hpq]
        simp only [hp, if_true, Bool.false_eq_true, if_false,
          List.length_cons]
        exact Nat.le_trans ih (Nat.le_succ _)
    · have hp' : p a = false := by simpa using hp
      have hpq : (p a && q a) = false := by simp [hp']
      simp only [hpq, hp', Bool.false_eq_true, if_false]
      exact ih

theorem length_filter_map_pred {α : Type} (l : List α) (p : α → Bool)
    (g : α → α) (h : ∀ x ∈ l, p (g x) = p x) :
    ((l.map g).filter p).length = (l.filter p).length := by
  induction l with
  | nil => rfl
  | cons a rest ih =>
    have ha := h a (List.mem_cons_self a rest)
    have ih' := ih (fun x hx => h x (List.mem_cons_of_mem a hx))
    simp only [List.map_cons, List.filter_cons, ha]
    by_cases hp : p a = true
    · simp only [hp, if_true, List.length_cons, ih']
    · have hp' : p a = false := by simpa using hp
      simp only [hp', Bool.false_eq_true, if_false, ih']

theorem toggle_tenant_inv (s : Store) (me k : Nat) (r : HResult)
    (hinv : tenantInv s) (hrun : toggle_tenant_status s me k = Except.ok r) :
    tenantInv r.store := by
  simp only [toggle_tenant_status] at hrun
  split at hrun
  · exact absurd hrun (by simp)
  · rename_i t heqT
    have heqT2 : List.find? (fun t => t.pk == some k &&
        s.flats.any fun fl => fl.pk == some t.flat &&
          fl.owner == some me) s.tenants = some t := heqT
    have hmem := List.mem_of_find?_eq_some heqT2
    simp only [saveExistingTenant] at hrun
    split at hrun
    · injection hrun with h
      subst h
      exact hinv
    · rename_i x2 s2 heqS
      injection hrun with h
      subst h
      split at heqS
      · exact absurd heqS (by simp)
      · injection heqS with hs2
        subst hs2
        obtain ⟨hbound, hpkc, husr⟩ := hinv
        refine ⟨?_, ?_, ?_⟩
        · intro t2 ht2 p hp
          simp only [List.mem_map] at ht2
          obtain ⟨y, hy, hxy⟩ := ht2
          by_cases hc : (y.pk == t.pk) = true
          · rw [if_pos hc] at hxy
            subst hxy
            exact hbound t hmem p hp
          · rw [if_neg hc] at hxy
            subst hxy
            exact hbound y hy p hp
        · intro k2
          have hfun : ∀ x ∈ s.tenants,
              ((if (x.pk == t.pk) = true then
                  ({ t with is_active := !t.is_active } : Tenant)
                else x).pk == some k2) = (x.pk == some k2) := by
            intro x hx
            by_cases hc : (x.pk == t.pk) = true
            · rw [if_pos hc]
              have hx2 : x.pk = t.pk := by rwa [beq_iff_eq] at hc
              rw [hx2]
            · rw [if_neg hc]
          dsimp only
          rw [length_filter_map_pred s.tenants _ _ hfun]
          exact hpkc k2
        · intro uid
          have hpkt : t.pk = some k := by
            have h3 := List.find?_some heqT2
            simp only [Bool.and_eq_true, beq_iff_eq] at h3
            exact h3.1
          have hfun : ∀ x ∈ s.tenants,
              ((if (x.pk == t.pk) = true then
                  ({ t with is_active := !t.is_active } : Tenant)
                else x).user == uid) = (x.user == uid) := by
            intro x hx
            by_cases hc : (x.pk == t.pk) = true
            · rw [if_pos hc]
              have hxt : x = t := by
                refine eq_of_filter_len_le_one s.tenants
                  (fun y => y.pk == some k) (hpkc k) hx hmem ?_ ?_
                · rw [beq_iff_eq] at hc
                  rw [beq_iff_eq, hc]
                  exact hpkt
                · rw [beq_iff_eq]
                  exact hpkt
              rw [hxt]
            · rw [if_neg hc]
          dsimp only
          rw [length_filter_map_pred s.tenants _ _ hfun]
          exact husr uid

theorem create_tenant_inv (s : Store) (me : Nat) (f : TenantForm)
    (r : HResult) (hinv : tenantInv s)
    (hrun : create_tenant s me f = Except.ok r) : tenantInv r.store := by
  simp only [create_tenant] at hrun
  split at hrun
  · split at hrun
    · injection hrun with h
      subst h
      exact hinv
    · split at hrun
      · injection hrun with h
        subst h
        exact hinv
      · split at hrun
        · split at hrun
          · injection hrun with h
            subst h
            exact hinv
          · split at hrun
            · injection hrun with h
              subst h
              exact hinv
            · injection hrun with h
              subst h
              exact hinv
            · split at hrun
              · injection hrun with h
                subst h
                exact hinv
              · split at hrun
                · injection hrun with h
                  subst h
                  exact hinv
                · injection hrun with h
                  subst h
                  exact hinv
                · split at hrun
                  · injection hrun with h
                    subst h
                    exact hinv
                  · rename_i x4 fl heq4 x3 ucleaned heq3 x2 s2 usaved heqU
                      x1 a1 heqC x0 s3 t2 heqT
                    injection hrun with h
                    subst h
                    simp only [saveNewUser] at heqU
                    split at heqU
                    · exact absurd heqU (by simp)
                    · injection heqU with hp
                      injection hp with hs2 hus
                      subst hs2
                      subst hus
                      simp only [saveNewTenant] at heqT
                      split at heqT
                      · exact absurd heqT (by simp)
                      · rename_i hnodup
                        injection heqT with hp2
                        injection hp2 with hs3 ht2
                        subst hs3
                        subst ht2
                        obtain ⟨hbound, hpkc, husr⟩ := hinv
                        rw [Bool.not_eq_true, List.any_eq_false] at hnodup
                        refine ⟨?_, ?_, ?_⟩
                        · intro t3 ht3 p hp
                          dsimp only at ht3 ⊢
                          rw [List.mem_append, List.mem_singleton] at ht3
                          rcases ht3 with hold | hnew
                          · have := hbound t3 hold p hp
                            omega
                          · subst hnew
                            dsimp only at hp
                            injection hp with hp2
                            omega
                        · intro k2
                          dsimp only
                          rw [List.filter_append, List.length_append]
                          by_cases hk : k2 = s.nextId + 1
                          · have hold : List.filter
                                (fun t => t.pk == some k2) s.tenants = [] := by
                              rw [List.filter_eq_nil_iff]
                              intro a ha
                              rw [beq_iff_eq]
                              intro hcc
                              have := hbound a ha k2 hcc
                              omega
                            rw [hold]
                            subst hk
                            simp
                          · have hk2 : ¬(s.nextId + 1 = k2) :=
                              fun hcc => hk hcc.symm
                            simpa [hk2] using hpkc k2
                        · intro uid
                          dsimp only
                          rw [List.filter_append, List.length_append]
                          by_cases huid : uid = s.nextId
                          · have hold : List.filter
                                (fun t => t.user == uid) s.tenants = [] := by
                              rw [List.filter_eq_nil_iff]
                              intro a ha
                              subst huid
                              simpa using hnodup a ha
                            rw [hold]
                            subst huid
                            simp
                          · have huid2 : ¬(s.nextId = uid) :=
                              fun hcc => huid hcc.symm
                            simpa [huid2] using husr uid
        · injection hrun with h
          subst h
          exact hinv
  · injection hrun with h
    subst h
    exact hinv

theorem update_tenant_inv (s : Store) (me k : Nat) (f : UpdateTenantForm)
    (r : HResult) (hinv : tenantInv s)
    (hrun : update_tenant s me k f = Except.ok r) : tenantInv r.store := by
  simp only [update_tenant] at hrun
  split at hrun
  · exact absurd hrun (by simp)
  · rename_i t heqT
    have heqT2 : List.find? (fun t => t.pk == some k &&
        s.flats.any fun fl => fl.pk == some t.flat &&
          fl.owner == some me) s.tenants = some t := heqT
    have hmem := List.mem_of_find?_eq_some heqT2
    split at hrun
    · split at hrun
      · injection hrun with h
        subst h
        exact hinv
      · split at hrun
        · injection hrun with h
          subst h
          exact hinv
        · split at hrun
          · rename_i rent sd heqR heqD
            split at hrun
            · injection hrun with h
              subst h
              exact hinv
            · split at hrun
              · injection hrun with h
                subst h
                exact hinv
              · injection hrun with h
                subst h
                exact hinv
              · split at hrun
                · injection hrun with h
                  subst h
                  exact hinv
                · rename_i x2 s2 heqU2
                  split at hrun
                  · injection hrun with h
                    subst h
                    exact hinv
                  · rename_i fl heqF
                    split at hrun
                    · injection hrun with h
                      subst h
                      exact hinv
                    · injection hrun with h
                      subst h
                      exact hinv
                    · split at hrun
                      · injection hrun with h
                        subst h
                        exact hinv
                      · rename_i x0 s3 heqST
                        injection hrun with h
                        subst h
                        simp only [saveExistingUser] at heqU2
                        split at heqU2
                        · exact absurd heqU2 (by simp)
                        · injection heqU2 with hs2
                          subst hs2
                          simp only [saveExistingTenant] at heqST
                          split at heqST
                          · exact absurd heqST (by simp)
                          · injection heqST with hs3
                            subst hs3
                            obtain ⟨hbound, hpkc, husr⟩ := hinv
                            refine ⟨?_, ?_, ?_⟩
                            · intro t3 ht3 p hp
                              dsimp only at ht3 ⊢
                              rw [List.mem_map] at ht3
                              obtain ⟨y, hy, hxy⟩ := ht3
                              by_cases hc : (y.pk == t.pk) = true
                              · rw [if_pos hc] at hxy
                                subst hxy
                                exact hbound t hmem p hp
                              · rw [if_neg hc] at hxy
                                subst hxy
                                exact hbound y hy p hp
                            · intro k2
                              have hfun : ∀ x ∈ s.tenants,
                                  ((if (x.pk == t.pk) = true then
                                      ({ t with
                                          flat := fl.pk.getD 0,
                                          rent_amount := rent,
                                          start_date := sd } : Tenant)
                                    else x).pk == some k2) =
                                    (x.pk == some k2) := by
                                intro x hx
                                by_cases hc : (x.pk == t.pk) = true
                                · rw [if_pos hc]
                                  have hx2 : x.pk = t.pk := by
                                    rwa [beq_iff_eq] at hc
                                  rw [hx2]
                                · rw [if_neg hc]
                              dsimp only
                              rw [length_filter_map_pred s.tenants _ _ hfun]
                              exact hpkc k2
                            · intro uid
                              have hpkt : t.pk = some k := by
                                have h3 := List.find?_some heqT2
                                simp only [Bool.and_eq_true,
                                  beq_iff_eq] at h3
                                exact h3.1
                              have hfun : ∀ x ∈ s.tenants,
                                  ((if (x.pk == t.pk) = true then
                                      ({ t with
                                          flat := fl.pk.getD 0,
                                          rent_amount := rent,
                                          start_date := sd } : Tenant)
                                    else x).user == uid) =
                                    (x.user == uid) := by
                                intro x hx
                                by_cases hc : (x.pk == t.pk) = true
                                · rw [if_pos hc]
                                  have hxt : x = t := by
                                    refine eq_of_filter_len_le_one s.tenants
                                      (fun y => y.pk == some k) (hpkc k)
                                      hx hmem ?_ ?_
                                    · rw [beq_iff_eq] at hc
                                      rw [beq_iff_eq, hc]
                                      exact hpkt
                                    · rw [beq_iff_eq]
                                      exact hpkt
                                  rw [hxt]
                                · rw [if_neg hc]
                              dsimp only
                              rw [length_filter_map_pred s.tenants _ _ hfun]
                              exact husr uid
          · injection hrun with h
            subst h
            exact hinv
    · injection hrun with h
      subst h
      exact hinv

/-- C3: the store constraints (unique tenant pk, one-to-one user) imply at
most one active Tenant row per user, and the constraints are preserved by
tenant creation, tenant update and status toggling — so at every store
state reachable through these handlers the claimed bound holds. -/
theorem C3_at_most_one_active_tenant_per_user :
    (∀ s : Store, tenantInv s → atMostOneActiveTenantPerUser s) ∧
    (∀ (s : Store) (me : Nat) (f : TenantForm) (r : HResult),
      tenantInv s → create_tenant s me f = Except.ok r →
        tenantInv r.store) ∧
    (∀ (s : Store) (me k : Nat) (f : UpdateTenantForm) (r : HResult),
      tenantInv s → update_tenant s me k f = Except.ok r →
        tenantInv r.store) ∧
    (∀ (s : Store) (me k : Nat) (r : HResult),
      tenantInv s → toggle_tenant_status s me k = Except.ok r →
        tenantInv r.store) := by
  refine ⟨?_, ?_, ?_, ?_⟩
  · intro s hinv uid
    exact Nat.le_trans
      (length_filter_and_le s.tenants (fun t => t.user == uid)
        (fun t => t.is_active))
      (hinv.2.2 uid)
  · intro s me f r hinv hrun
    exact create_tenant_inv s me f r hinv hrun
  · intro s me k f r hinv hrun
    exact update_tenant_inv s me k f r hinv hrun
  · intro s me k r hinv hrun
    exact toggle_tenant_inv s me k r hinv hrun

/-- C3 witness: the concrete store `storeTen` satisfies the constraints
and hence has at most one active tenant per user. -/
theorem C3_at_most_one_active_tenant_per_user_witness :
    atMostOneActiveTenantPerUser storeTen :=
  C3_at_most_one_active_tenant_per_user.1 storeTen
    ⟨by
      intro t ht p hp
      simp only [storeTen, List.mem_singleton] at ht
      subst ht
      injection hp with hp2
      show p < 8
      omega,
     fun k => Nat.le_trans (List.length_filter_le _ _) (by decide),
     fun uid => Nat.le_trans (List.length_filter_le _ _) (by decide)⟩

/-- C2 (amended): the claim that every failure yields a redirect plus a
notice does not hold (see the counterexample: validation failures in the
create handlers `render` the page, and a failed top-level primary-key
lookup escapes as Http404 with no notice).  What does hold, for every
modeled handler: the handler always returns a response — the only
exception that can escape is the framework's Http404 from
`get_object_or_404` (the create handlers never raise at all) — and every
completed POST request carries at least one user-visible notice, so every
failure handled in a handler body is reported. -/
theorem C2_failures_noticed_amended :
    (∀ (s : Store) (f : SocietyForm),
      ∃ r, create_society s f = Except.ok r) ∧
    (∀ (s : Store) (f : SocietyForm) (r : HResult),
      create_society s f = Except.ok r → f.post = true →
        r.notices ≠ []) ∧
    (∀ (s : Store) (cy : Int) (f : BillForm),
      ∃ r, create_bill s cy f = Except.ok r) ∧
    (∀ (s : Store) (cy : Int) (f : BillForm) (r : HResult),
      create_bill s cy f = Except.ok r → f.post = true →
        r.notices ≠ []) ∧
    (∀ (s : Store) (me : Nat) (f : TenantForm),
      ∃ r, create_tenant s me f = Except.ok r) ∧
    (∀ (s : Store) (me : Nat) (f : TenantForm) (r : HResult),
      create_tenant s me f = Except.ok r → f.post = true →
        r.notices ≠ []) ∧
    (∀ (s : Store) (k : Nat) (e : PyExc),
      delete_society s k = Except.error e → e = PyExc.http404) ∧
    (∀ (s : Store) (k : Nat) (r : HResult),
      delete_society s k = Except.ok r → r.notices ≠ []) ∧
    (∀ (s : Store) (k : Nat) (e : PyExc),
      delete_flat s k = Except.error e → e = PyExc.http404) ∧
    (∀ (s : Store) (k : Nat) (r : HResult),
      delete_flat s k = Except.ok r → r.notices ≠ []) ∧
    (∀ (s : Store) (k : Nat) (e : PyExc),
      toggle_bill_status s k = Except.error e → e = PyExc.http404) ∧
    (∀ (s : Store) (k : Nat) (r : HResult),
      toggle_bill_status s k = Except.ok r → r.notices ≠ []) ∧
    (∀ (s : Store) (me k : Nat) (e : PyExc),
      toggle_tenant_status s me k = Except.error e → e = PyExc.http404) ∧
    (∀ (s : Store) (me k : Nat) (r : HResult),
      toggle_tenant_status s me k = Except.ok r → r.notices ≠ []) ∧
    (∀ (s : Store) (me k : Nat) (f : UpdateTenantForm) (e : PyExc),
      update_tenant s me k f = Except.error e → e = PyExc.http404) ∧
    (∀ (s : Store) (me k : Nat) (f : UpdateTenantForm) (r : HResult),
      update_tenant s me k f = Except.ok r → f.post = true →
        r.notices ≠ []) ∧
    (∀ (s : Store) (me k : Nat) (post : Bool) (e : PyExc),
      delete_tenant s me k post = Except.error e → e = PyExc.http404) ∧
    (∀ (s : Store) (me k : Nat) (post : Bool) (r : HResult),
      delete_tenant s me k post = Except.ok r → post = true →
        r.notices ≠ []) := by
  refine ⟨?_, ?_, ?_, ?_, ?_, ?_, ?_, ?_, ?_, ?_, ?_, ?_, ?_, ?_, ?_, ?_,
    ?_, ?_⟩
  · intro s f
    simp only [create_society]
    repeat' split
    all_goals exact ⟨_, rfl⟩
  · intro s f r h hpost
    simp only [create_society, hpost, if_true] at h
    repeat' split at h
    all_goals (injection h with h2; subst h2; simp)
  · intro s cy f
    simp only [create_bill]
    repeat' split
    all_goals exact ⟨_, rfl⟩
  · intro s cy f r h hpost
    simp only [create_bill, hpost, if_true] at h
    repeat' split at h
    all_goals (injection h with h2; subst h2; simp)
  · intro s me f
    simp only [create_tenant]
    repeat' split
    all_goals exact ⟨_, rfl⟩
  · intro s me f r h hpost
    simp only [create_tenant, hpost, if_true] at h
    repeat' split at h
    all_goals (injection h with h2; subst h2; simp)
  · intro s k e h
    simp only [delete_society] at h
    repeat' split at h
    all_goals
      first
        | (injection h with h2; exact h2.symm)
        | (exact absurd h (by simp))
  · intro s k r h
    simp only [delete_society] at h
    repeat' split at h
    all_goals
      first
        | (injection h with h2; subst h2; simp)
        | (exact absurd h (by simp))
  · intro s k e h
    simp only [delete_flat] at h
    repeat' split at h
    all_goals
      first
        | (injection h with h2; exact h2.symm)
        | (exact absurd h (by simp))
  · intro s k r h
    simp only [delete_flat] at h
    repeat' split at h
    all_goals
      first
        | (injection h with h2; subst h2; simp)
        | (exact absurd h (by simp))
  · intro s k e h
    simp only [toggle_bill_status] at h
    repeat' split at h
    all_goals
      first
        | (injection h with h2; exact h2.symm)
        | (exact absurd h (by simp))
  · intro s k r h
    simp only [toggle_bill_status] at h
    repeat' split at h
    all_goals
      first
        | (injection h with h2; subst h2; simp)
        | (exact absurd h (by simp))
  · intro s me k e h
    simp only [toggle_tenant_status] at h
    repeat' split at h
    all_goals
      first
        | (injection h with h2; exact h2.symm)
        | (exact absurd h (by simp))
  · intro s me k r h
    simp only [toggle_tenant_status] at h
    repeat' split at h
    all_goals
      first
        | (injection h with h2; subst h2; simp)
        | (exact absurd h (by simp))
  · intro s me k f e h
    simp only [update_tenant] at h
    repeat' split at h
    all_goals
      first
        | (injection h with h2; exact h2.symm)
        | (exact absurd h (by simp))
  · intro s me k f r h hpost
    simp only [update_tenant, hpost, if_true] at h
    repeat' split at h
    all_goals
      first
        | (injection h with h2; subst h2; simp)
        | (exact absurd h (by simp))
  · intro s me k post e h
    simp only [delete_tenant] at h
    repeat' split at h
    all_goals
      first
        | (injection h with h2; exact h2.symm)
        | (exact absurd h (by simp))
  · intro s me k post r h hpost
    simp only [delete_tenant, hpost, if_true] at h
    repeat' split at h
    all_goals
      first
        | (injection h with h2; subst h2; simp)
        | (exact absurd h (by simp))

/-- C2 amended witness: the concrete failing `create_society` request from
the counterexample does produce a (render) response with a non-empty
notice list. -/
theorem C2_failures_noticed_amended_witness :
    ([nerr "Validation error: Society name must be at least 3 characters long"]
      : List Notice) ≠ [] :=
  C2_failures_noticed_amended.2.1 emptyStore
    ⟨true, "ab", "Some Address 123456"⟩
    ⟨emptyStore,
      [nerr "Validation error: Society name must be at least 3 characters long"],
      Response.render "admin/society_list.html"⟩ rfl rfl
